import Mathlib

/-!
# SoftRF track logger (`LogHelper.cpp`, SD/GPX variant)

A shallow embedding of the GPX track logger of
`software/firmware/source/SoftRF/LogHelper.cpp` (the `SDGPXLOG` half of the file) and
theorems about it.

* C strings and file contents are `List Char` (all literals of the source are ASCII,
  so one `Char` is one byte).
* The globals of the translation unit (`sd_avail`, `gpxFile`, `prevTime`, `buf`) together
  with the text sent to `Serial` and the list of calls made on `SD` form the state
  `Logger`; every function of the source is a function on that state.
* What the source reads from its collaborators is an explicit argument: the GNSS snapshot
  `gnss`, the card `SD` (its answers to `begin`, `exists`, `mkdir`, `open`), the clock
  `now()`, the mode `settings->logger`, the macro `SAMPLE_INTERVAL` and the libc routine
  `dtostrf`.
-/

namespace LogHelper

/-! ## Constants of the source -/

/-- The macro `SEEK_TRKPT_BACKWARDS` (source line 40). -/
def SEEK_TRKPT_BACKWARDS : Int := -24

/-- The macro `GPX_EPILOGUE` (source line 41): the closing fragment of the document. -/
def GPX_EPILOGUE : List Char := "\t</trkseg></trk>\n</gpx>\n".toList

/-- The macro `LATLON_PREC` (source line 42). -/
def LATLON_PREC : Nat := 6

/-- The global `int TimeZone = 9;` (source line 44); nothing in the file assigns it. -/
def TimeZone : Int := 9

/-- The text printed first by `startFilesOnSdNoSync` (source lines 95-97). -/
def GPX_PREAMBLE : List Char :=
  "<?xml version=\"1.0\" encoding=\"UTF-8\"?>\n".toList
    ++ "<gpx version=\"1.0\">\n".toList
    ++ "\t<trk><trkseg>\n".toList

/-! ## The file handle -/

/-- Modelled from the spec: the `File` handle of the storage driver (`mySD.h`, not part of
this source file). The spec describes it as a generic file-handle capability with
open/seek/write/flush; the track file is a byte sequence with a cursor. `isOpen` is what
`operator bool` returns. -/
structure File where
  isOpen : Bool
  content : List Char
  cursor : Nat
deriving DecidableEq

/-- The value of a default-constructed `File` (the global `File gpxFile;`): no file. -/
def File.closed : File := { isOpen := false, content := [], cursor := 0 }

/-- A handle on a file that was just created: no bytes, cursor at 0. -/
def File.created : File := { isOpen := true, content := [], cursor := 0 }

/-- Modelled from the spec: `File::size()`, the current length of the file in bytes
(0 for a handle that is not open). -/
def File.size (f : File) : Nat := if f.isOpen then f.content.length else 0

/-- Modelled from the spec: `File::seek(pos)` moves the cursor to `pos`. The argument of
the source is the 32-bit unsigned sum `size() + SEEK_TRKPT_BACKWARDS`; it is kept here as
the integer `size − 24`. For every file shorter than `2^32` bytes the two agree when
`24 ≤ size`, and when `size < 24` the wrapped sum lies beyond the end of the file, where
the driver refuses to seek, as it does here for a negative position. -/
def File.seek (f : File) (pos : Int) : File :=
  if f.isOpen && decide (0 ≤ pos) && decide (pos ≤ (f.content.length : Int)) then
    { f with cursor := pos.toNat }
  else f

/-- Modelled from the spec: `File::print(text)` writes the bytes of `text` at the cursor,
overwriting what is there and extending the file when the end is reached, and leaves the
cursor after the last byte written. A handle that is not open writes nothing. -/
def File.print (f : File) (s : List Char) : File :=
  if f.isOpen then
    { f with
      content := f.content.take f.cursor ++ s ++ f.content.drop (f.cursor + s.length)
      cursor := f.cursor + s.length }
  else f

/-- Modelled from the spec: `File::flush()` forces the bytes to the card; the content
and the cursor of the file are what they were. -/
def File.flush (f : File) : File := f

/-! ## Formatting -/

/-- The decimal digits of a natural number, as `printf` and `Print::print` render an
unsigned value. -/
def decimal (n : Nat) : List Char := Nat.toDigits 10 n

/-- A natural number in decimal, filled on the left with `0` up to `w` characters. -/
def zeroPad (w n : Nat) : List Char :=
  List.replicate (w - (decimal n).length) '0' ++ decimal n

/-- The `printf` conversion `%0wd` applied to an `int`: the sign of a negative value
counts in the width. -/
def fmt0d (w : Nat) (v : Int) : List Char :=
  if v < 0 then '-' :: zeroPad (w - 1) v.natAbs else zeroPad w v.toNat

/-- Source lines 115-118: `trim` skips the leading spaces and tabs of a C string. -/
def trim : List Char → List Char
  | [] => []
  | c :: cs => if c = ' ' ∨ c = '\t' then trim cs else c :: cs

/-! ## The collaborators -/

/-- Modelled from the spec: the GNSS snapshot `gnss` (a TinyGPS++ object, declared outside
this source file) as far as the logger reads it: the position, the optional fields with
their validity flags, the date and the time, and the value of `isValidGNSSFix()`.
`D` is the type of the scalar readings handed to `dtostrf`. -/
structure Gnss (D : Type) where
  location_lat : D
  location_lng : D
  altitude_isValid : Bool
  altitude_value : D
  speed_isValid : Bool
  speed_value : D
  course_isValid : Bool
  course_value : D
  satellites_isValid : Bool
  satellites_value : Nat
  hdop_isValid : Bool
  hdop_hdop : D
  date_year : Nat
  date_month : Nat
  date_day : Nat
  time_hour : Nat
  time_minute : Nat
  time_second : Nat
  time_centisecond : Nat
  isValidGNSSFix : Bool

/-- Modelled from the spec: the storage driver `SD` (declared outside this source file),
given by the answers it returns to the calls the logger makes. -/
structure SDClass where
  beginOk : Bool
  existsPath : List Char → Bool
  mkdirOk : List Char → Bool
  openFile : List Char → File

/-- The calls the logger makes on `SD`, recorded in the order they are made. -/
inductive SdCall where
  | sdBegin
  | sdExists (path : List Char)
  | sdMkdir (path : List Char)
  | sdOpen (path : List Char)
  | sdEnd
deriving DecidableEq

/-- Modelled from the spec: the mode selector `settings->logger`; the two values the
source names, and any other value (the `default:` label). -/
inductive LoggerMode where
  | LOGGER_OFF
  | LOGGER_SD
  | other (v : Nat)
deriving DecidableEq

/-- The globals of the source (lines 45-51), the text sent to `Serial` and the calls made
on `SD`. -/
structure Logger where
  sd_avail : Int
  gpxFile : File
  prevTime : Nat
  buf : List Char
  serial : List Char
  sdCalls : List SdCall
deriving DecidableEq

/-- The globals as C initialises them, before `Logger_setup`. -/
def Logger.init : Logger :=
  { sd_avail := 0, gpxFile := File.closed, prevTime := 0, buf := [], serial := [],
    sdCalls := [] }

/-- The call `Serial.print(text)`. -/
def Logger.serialPrint (s : Logger) (text : List Char) : Logger :=
  { s with serial := s.serial ++ text }

/-- The call `Serial.println(text)`: the text and a line end. -/
def Logger.serialPrintln (s : Logger) (text : List Char) : Logger :=
  { s with serial := s.serial ++ text ++ "\r\n".toList }

/-- A call on `SD` is recorded. -/
def Logger.call (s : Logger) (c : SdCall) : Logger :=
  { s with sdCalls := s.sdCalls ++ [c] }

/-- An assignment to the global `gpxFile`. -/
def Logger.setGpxFile (s : Logger) (f : File) : Logger := { s with gpxFile := f }

/-- An assignment to the global `buf` (what `sprintf(buf, ...)` leaves in it). -/
def Logger.setBuf (s : Logger) (text : List Char) : Logger := { s with buf := text }

/-- An assignment to the global `prevTime`. -/
def Logger.setPrevTime (s : Logger) (t : Nat) : Logger := { s with prevTime := t }

/-- An assignment to the global `sd_avail`. -/
def Logger.setSdAvail (s : Logger) (v : Int) : Logger := { s with sd_avail := v }

/-- The call `gpxFile.print(text)` on the global file handle. -/
def Logger.gpxPrint (s : Logger) (text : List Char) : Logger :=
  s.setGpxFile (s.gpxFile.print text)

/-! ## The functions of the source -/

section Source

variable {D : Type}

/-- The text `sprintf` builds at source lines 54-63. -/
def timestampedPath (gnss : Gnss D) (shortSuffix : List Char) : List Char :=
  "/".toList ++ fmt0d 2 gnss.date_year ++ fmt0d 2 gnss.date_month ++ fmt0d 2 gnss.date_day
    ++ "/".toList ++ fmt0d 2 (gnss.time_hour + TimeZone) ++ fmt0d 2 gnss.time_minute
    ++ fmt0d 2 gnss.time_second ++ shortSuffix

/-- Source lines 53-73. The parameter `file` of the source is not used: the function
assigns the global `gpxFile`. -/
def openTimestampedFile (SD : SDClass) (gnss : Gnss D) (shortSuffix : List Char)
    (s : Logger) : Logger :=
  let s := s.setBuf (timestampedPath gnss shortSuffix)
  let s := s.serialPrint "Starting file ".toList
  let s := s.serialPrintln s.buf
  let s := s.call (.sdExists s.buf)
  let s := if SD.existsPath s.buf then
      s.serialPrintln "warning: already exists, overwriting.".toList
    else s
  let s := s.call (.sdOpen s.buf)
  let s := s.setGpxFile (SD.openFile s.buf)
  if !s.gpxFile.isOpen then s.serialPrintln "error: cannot create new file!".toList else s

/-- The text `sprintf` builds at source lines 77-82. -/
def dayDirectory (gnss : Gnss D) : List Char :=
  "/".toList ++ fmt0d 2 gnss.date_year ++ fmt0d 2 gnss.date_month ++ fmt0d 2 gnss.date_day

/-- Source lines 75-99. -/
def startFilesOnSdNoSync (SD : SDClass) (gnss : Gnss D) (s : Logger) : Logger :=
  let s := s.setBuf (dayDirectory gnss)
  let s := s.call (.sdExists s.buf)
  let s := if !SD.existsPath s.buf then
      let s := s.call (.sdMkdir s.buf)
      if !SD.mkdirOk s.buf then
        s.serialPrintln "error: Creating log directory for today failed.".toList
      else s
    else s
  let s := openTimestampedFile SD gnss ".gpx".toList s
  let s := s.gpxPrint GPX_PREAMBLE
  s.gpxPrint GPX_EPILOGUE

/-- The text `sprintf` builds at source lines 102-111. -/
def sampleDatetime (gnss : Gnss D) : List Char :=
  fmt0d 4 gnss.date_year ++ "-".toList ++ fmt0d 2 gnss.date_month ++ "-".toList
    ++ fmt0d 2 gnss.date_day ++ "T".toList ++ fmt0d 2 (gnss.time_hour + TimeZone)
    ++ ":".toList ++ fmt0d 2 gnss.time_minute ++ ":".toList ++ fmt0d 2 gnss.time_second
    ++ ".".toList ++ fmt0d 3 gnss.time_centisecond ++ "Z".toList

/-- Source lines 101-113: the text goes to the global `buf` and from there to `file`,
which at the only call is the global `gpxFile`. -/
def writeFormattedSampleDatetime (gnss : Gnss D) (s : Logger) : Logger :=
  let s := s.setBuf (sampleDatetime gnss)
  s.gpxPrint s.buf

/-- The argument of `seek` at source line 122: `gpxFile.size() + SEEK_TRKPT_BACKWARDS`. -/
def seekTarget (f : File) : Int := (f.size : Int) + SEEK_TRKPT_BACKWARDS

/-- Source lines 120-168. The local `char buf[12]` only carries the result of `dtostrf`
to `trim`. -/
def writeGpxSampleToSd (dtostrf : D → Nat → Nat → List Char) (gnss : Gnss D)
    (s : Logger) : Logger :=
  let s := s.setGpxFile (s.gpxFile.seek (seekTarget s.gpxFile))
  let s := s.gpxPrint "\t\t<trkpt ".toList
  let s := s.gpxPrint "lat=\"".toList
  let s := s.gpxPrint (trim (dtostrf gnss.location_lat 10 LATLON_PREC))
  let s := s.gpxPrint "\" lon=\"".toList
  let s := s.gpxPrint (trim (dtostrf gnss.location_lng 10 LATLON_PREC))
  let s := s.gpxPrint "\">".toList
  let s := s.gpxPrint "<time>".toList
  let s := writeFormattedSampleDatetime gnss s
  let s := s.gpxPrint "</time>".toList
  let s := if gnss.altitude_isValid then
      let s := s.gpxPrint "<ele>".toList
      let s := s.gpxPrint (trim (dtostrf gnss.altitude_value 5 2))
      s.gpxPrint "</ele>".toList
    else s
  let s := if gnss.speed_isValid then
      let s := s.gpxPrint "<speed>".toList
      let s := s.gpxPrint (trim (dtostrf gnss.speed_value 5 1))
      s.gpxPrint "</speed>".toList
    else s
  let s := if gnss.course_isValid then
      let s := s.gpxPrint "<course>".toList
      let s := s.gpxPrint (trim (dtostrf gnss.course_value 5 1))
      s.gpxPrint "</course>".toList
    else s
  let s := if gnss.satellites_isValid then
      let s := s.gpxPrint "<sat>".toList
      let s := s.gpxPrint (decimal gnss.satellites_value)
      s.gpxPrint "</sat>".toList
    else s
  let s := if gnss.hdop_isValid then
      let s := s.gpxPrint "<hdop>".toList
      let s := s.gpxPrint (trim (dtostrf gnss.hdop_hdop 5 2))
      s.gpxPrint "</hdop>".toList
    else s
  let s := s.gpxPrint "</trkpt>\n".toList
  let s := s.gpxPrint GPX_EPILOGUE
  s.setGpxFile s.gpxFile.flush

/-- Source lines 170-189. -/
def Logger_setup (settings_logger : LoggerMode) (SD : SDClass) (gnss : Gnss D)
    (s : Logger) : Logger :=
  match settings_logger with
  | .LOGGER_SD =>
    let s := s.call .sdBegin
    if !SD.beginOk then s.serialPrintln "SD Init failed!".toList
    else
      let s := s.setSdAvail 1
      if s.sd_avail ≠ 0 ∧ gnss.isValidGNSSFix then startFilesOnSdNoSync SD gnss s else s
  | _ => s

/-- Source lines 191-211. `curTime` and `prevTime` are `unsigned int`: the clock value is
reduced modulo `2^32` and so is the difference. -/
def Logger_loop (SAMPLE_INTERVAL : Nat) (dtostrf : D → Nat → Nat → List Char)
    (settings_logger : LoggerMode) (SD : SDClass) (gnss : Gnss D) (now : Nat)
    (s : Logger) : Logger :=
  match settings_logger with
  | .LOGGER_SD =>
    if s.sd_avail ≠ 0 ∧ gnss.isValidGNSSFix then
      let curTime := now % 2 ^ 32
      if !s.gpxFile.isOpen then startFilesOnSdNoSync SD gnss s
      else if SAMPLE_INTERVAL ≤ (curTime + (2 ^ 32 - s.prevTime % 2 ^ 32)) % 2 ^ 32 then
        let s := s.setPrevTime curTime
        writeGpxSampleToSd dtostrf gnss s
      else s
    else s
  | _ => s

/-- Source lines 213-224. -/
def Logger_fini (settings_logger : LoggerMode) (s : Logger) : Logger :=
  match settings_logger with
  | .LOGGER_SD => s.call .sdEnd
  | _ => s

end Source

/-! ## Notions the statements use -/

section Notions

variable {D : Type}

/-- The point element: the text `writeGpxSampleToSd` prints for one fix between the seek
and the closing fragment (source lines 123-163). -/
def trkpt (dtostrf : D → Nat → Nat → List Char) (gnss : Gnss D) : List Char :=
  "\t\t<trkpt ".toList ++ "lat=\"".toList
    ++ trim (dtostrf gnss.location_lat 10 LATLON_PREC) ++ "\" lon=\"".toList
    ++ trim (dtostrf gnss.location_lng 10 LATLON_PREC) ++ "\">".toList
    ++ "<time>".toList ++ sampleDatetime gnss ++ "</time>".toList
    ++ (if gnss.altitude_isValid then
          "<ele>".toList ++ trim (dtostrf gnss.altitude_value 5 2) ++ "</ele>".toList
        else [])
    ++ (if gnss.speed_isValid then
          "<speed>".toList ++ trim (dtostrf gnss.speed_value 5 1) ++ "</speed>".toList
        else [])
    ++ (if gnss.course_isValid then
          "<course>".toList ++ trim (dtostrf gnss.course_value 5 1) ++ "</course>".toList
        else [])
    ++ (if gnss.satellites_isValid then
          "<sat>".toList ++ decimal gnss.satellites_value ++ "</sat>".toList
        else [])
    ++ (if gnss.hdop_isValid then
          "<hdop>".toList ++ trim (dtostrf gnss.hdop_hdop 5 2) ++ "</hdop>".toList
        else [])
    ++ "</trkpt>\n".toList

/-- The track file right after a session was created on a new file: the preamble and the
closing fragment, printed one after the other (source lines 94-98). -/
def skeletonFile : File := (File.created.print GPX_PREAMBLE).print GPX_EPILOGUE

/-- A stand-in for `dtostrf` on readings that are given by their decimal text: the text,
right-justified with spaces in a field of `width` characters. -/
def padReading (v : List Char) (width _prec : Nat) : List Char :=
  List.replicate (width - v.length) ' ' ++ v

/-- A fix at 35.681236 N, 139.767125 E on 2024-03-01 at 10:15:30.00 with no valid optional
field. -/
def tokyoFix : Gnss (List Char) :=
  { location_lat := "35.681236".toList, location_lng := "139.767125".toList
    altitude_isValid := false, altitude_value := []
    speed_isValid := false, speed_value := []
    course_isValid := false, course_value := []
    satellites_isValid := false, satellites_value := 0
    hdop_isValid := false, hdop_hdop := []
    date_year := 2024, date_month := 3, date_day := 1
    time_hour := 10, time_minute := 15, time_second := 30, time_centisecond := 0
    isValidGNSSFix := true }

/-- The same reading as `tokyoFix`, but not a valid fix. -/
def noFix : Gnss (List Char) := { tokyoFix with isValidGNSSFix := false }

/-- The globals with storage available and a session open on the skeleton file. -/
def openSession : Logger := (Logger.init.setSdAvail 1).setGpxFile skeletonFile

/-- A card on which every call succeeds and every file opened is new. -/
def freshCard : SDClass :=
  { beginOk := true, existsPath := fun _ => false, mkdirOk := fun _ => true,
    openFile := fun _ => File.created }

/-- The two decimal digits of a number below 100, tens first. -/
def digits2 (n : Nat) : List Char := [Nat.digitChar (n / 10 % 10), Nat.digitChar (n % 10)]

/-- The three decimal digits of a number below 1000, hundreds first. -/
def digits3 (n : Nat) : List Char :=
  [Nat.digitChar (n / 100 % 10), Nat.digitChar (n / 10 % 10), Nat.digitChar (n % 10)]

/-- The four decimal digits of a number below 10000, thousands first. -/
def digits4 (n : Nat) : List Char :=
  [Nat.digitChar (n / 1000 % 10), Nat.digitChar (n / 100 % 10), Nat.digitChar (n / 10 % 10),
    Nat.digitChar (n % 10)]

/-- The size of the global formatting buffer `char buf[32]` (source line 51). -/
def buf_capacity : Nat := 32

/-- A run of `Logger_loop` calls, one per tick; a tick gives the answers of the card, the
GNSS snapshot and the value of `now()` at that call. -/
def Logger_loops (SAMPLE_INTERVAL : Nat) (dtostrf : D → Nat → Nat → List Char)
    (settings_logger : LoggerMode) (ticks : List (SDClass × Gnss D × Nat)) (s : Logger) :
    Logger :=
  ticks.foldl
    (fun st tk => Logger_loop SAMPLE_INTERVAL dtostrf settings_logger tk.1 tk.2.1 tk.2.2 st) s

/-- A card whose `begin` fails. -/
def deadCard : SDClass := { freshCard with beginOk := false }

/-- A card on which no file can be opened. -/
def readOnlyCard : SDClass := { freshCard with openFile := fun _ => File.closed }

/-- A card that refuses to create a directory and still opens new files. -/
def noMkdirCard : SDClass := { freshCard with mkdirOk := fun _ => false }

/-- The ticks a throttle of interval `T` accepts when the clock values are compared as
natural numbers: a tick is accepted when its clock value is at least `T` past the clock
value of the last accepted one (`last` before the first). -/
def acceptedTicks (T : Nat) :
    Nat → List (SDClass × Gnss D × Nat) → List (SDClass × Gnss D × Nat)
  | _, [] => []
  | last, tk :: rest =>
    if last + T ≤ tk.2.2 then tk :: acceptedTicks T tk.2.2 rest
    else acceptedTicks T last rest

/-- The number of positions of `text` at which `pat` occurs as a substring. -/
def countOccurrences (pat : List Char) : List Char → Nat
  | [] => if pat.isEmpty then 1 else 0
  | c :: cs => (if pat.isPrefixOf (c :: cs) then 1 else 0) + countOccurrences pat cs

/-- At every position of `text`, whether `pat` occurs there is settled by `text` alone:
`pat` occurs in full, or a character of `text` differs from it. -/
def settled (pat : List Char) : List Char → Bool
  | [] => true
  | c :: cs => (pat.isPrefixOf (c :: cs) || !((c :: cs).isPrefixOf pat)) && settled pat cs

/-- The text `pat` occurs nowhere in `text`, and that is settled by `text` alone. -/
def absent (pat text : List Char) : Bool := settled pat text && countOccurrences pat text == 0

/-- The characters of a rendered number (digits, `.`, `-`) and of the timestamp. -/
def fieldChar (c : Char) : Bool :=
  c.isDigit || c == '.' || c == '-' || c == 'T' || c == ':' || c == 'Z'

/-- A rendered number that consists only of digits, `.` and `-`. -/
def isNumeric (text : List Char) : Bool :=
  text.all (fun c => c.isDigit || c == '.' || c == '-')

/-- The numbers `writeGpxSampleToSd` renders with `dtostrf` for a fix (the position, and
each optional field that is valid) consist only of digits, `.` and `-`. -/
def renderedNumeric (dtostrf : D → Nat → Nat → List Char) (gnss : Gnss D) : Bool :=
  isNumeric (trim (dtostrf gnss.location_lat 10 LATLON_PREC))
    && isNumeric (trim (dtostrf gnss.location_lng 10 LATLON_PREC))
    && (!gnss.altitude_isValid || isNumeric (trim (dtostrf gnss.altitude_value 5 2)))
    && (!gnss.speed_isValid || isNumeric (trim (dtostrf gnss.speed_value 5 1)))
    && (!gnss.course_isValid || isNumeric (trim (dtostrf gnss.course_value 5 1)))
    && (!gnss.hdop_isValid || isNumeric (trim (dtostrf gnss.hdop_hdop 5 2)))

/-- Modelled from the spec: the scalar readings handed to the formatter are signed decimal
numbers (the `double` values of the TinyGPS++ accessors, declared outside this source
file). The number is `mantissa / 10 ^ scale`: 47.123456 is mantissa 47123456 at scale 6. -/
structure Decimal where
  mantissa : Int
  scale : Nat
deriving DecidableEq

/-- Modelled from the spec: `dtostrf(value, width, prec, buf)`, the libc routine behind the
spec's `formatScalar`, which is not part of this source file. It renders a signed decimal
number in the form `[-]d.ddd` with exactly `prec` fraction digits (the value rounded to
that many digits, a half away from zero) and right-justifies the text with spaces in a
field of at least `width` characters; a longer text is not cut. -/
def dtostrf (value : Decimal) (width prec : Nat) : List Char :=
  let scaled :=
    (2 * value.mantissa.natAbs * 10 ^ prec + 10 ^ value.scale) / (2 * 10 ^ value.scale)
  let body := decimal (scaled / 10 ^ prec)
    ++ (if prec = 0 then [] else '.' :: zeroPad prec (scaled % 10 ^ prec))
  let signed := if value.mantissa < 0 then '-' :: body else body
  List.replicate (width - signed.length) ' ' ++ signed

end Notions

/-! ## Lemmas on the file handle -/

theorem take_drop_overwrite (C s t : List Char) (c : Nat) :
    List.take (c + s.length) (C.take c ++ s ++ C.drop (c + s.length)) ++ t
      ++ List.drop (c + s.length + t.length) (C.take c ++ s ++ C.drop (c + s.length))
    = C.take c ++ (s ++ t) ++ C.drop (c + (s ++ t).length) := by
  rcases Nat.le_total c C.length with h | h
  · have h1 : (C.take c ++ s).length = c + s.length := by
      simp [List.length_take, Nat.min_eq_left h]
    rw [List.take_left' h1]
    have h2 : List.drop (c + s.length + t.length) (C.take c ++ s ++ C.drop (c + s.length))
        = C.drop (c + (s ++ t).length) := by
      rw [List.drop_append_eq_append_drop, h1]
      have : List.drop (c + s.length + t.length) (C.take c ++ s) = [] := by
        apply List.drop_eq_nil_of_le; rw [h1]; omega
      rw [this]
      simp [List.drop_drop]
      congr 1; omega
    rw [h2]; simp [List.append_assoc]
  · have e1 : C.take c = C := List.take_of_length_le h
    have e2 : ∀ k, C.drop (c + k) = [] := fun k => List.drop_eq_nil_of_le (by omega)
    rw [e1, e2, e2]
    have : List.drop (c + s.length + t.length) (C ++ s ++ []) = [] := by
      apply List.drop_eq_nil_of_le; simp; omega
    rw [this]
    have : List.take (c + s.length) (C ++ s ++ []) = C ++ s := by
      rw [List.append_nil]; apply List.take_of_length_le; simp; omega
    rw [this]; simp

/-- Two prints in a row write the concatenation. -/
theorem File.print_print (f : File) (s t : List Char) :
    (f.print s).print t = f.print (s ++ t) := by
  unfold File.print
  cases h : f.isOpen
  · simp [h]
  · simp only [h, if_true]
    rw [take_drop_overwrite]
    simp [Nat.add_assoc]

/-- Printing nothing changes nothing, when the cursor is inside the file. -/
theorem File.print_nil (f : File) (h : f.cursor ≤ f.content.length) : f.print [] = f := by
  unfold File.print
  cases hf : f.isOpen
  · simp
  · cases f; simp_all

/-- A print at the cursor of an open file whose cursor is inside the file. -/
theorem File.print_content (f : File) (s : List Char) (ho : f.isOpen = true) :
    (f.print s).content = f.content.take f.cursor ++ s ++ f.content.drop (f.cursor + s.length)
    ∧ (f.print s).cursor = f.cursor + s.length ∧ (f.print s).isOpen = true := by
  unfold File.print
  simp [ho]

section SourceLemmas

variable {D : Type}

theorem Logger.gpxPrint_gpxPrint (s : Logger) (a b : List Char) :
    (s.gpxPrint a).gpxPrint b = s.gpxPrint (a ++ b) := by
  simp [Logger.gpxPrint, Logger.setGpxFile, File.print_print]

theorem Logger.setBuf_gpxPrint (s : Logger) (x a : List Char) :
    (s.setBuf x).gpxPrint a = (s.gpxPrint a).setBuf x := rfl

theorem Logger.setGpxFile_gpxPrint (s : Logger) (f : File) (a : List Char) :
    (s.setGpxFile f).gpxPrint a = s.setGpxFile (f.print a) := rfl

theorem Logger.setGpxFile_self (s : Logger) : s.setGpxFile s.gpxFile = s := by
  cases s; rfl

theorem Logger.setBuf_buf (s : Logger) (x : List Char) : (s.setBuf x).buf = x := rfl

/-- The whole of one append: a seek, then one print of the point element followed by the
closing fragment; the global `buf` holds the timestamp afterwards. -/
theorem writeGpxSampleToSd_eq (dtostrf : D → Nat → Nat → List Char) (gnss : Gnss D)
    (s : Logger) :
    writeGpxSampleToSd dtostrf gnss s =
      (s.setGpxFile ((s.gpxFile.seek (seekTarget s.gpxFile)).print
          (trkpt dtostrf gnss ++ GPX_EPILOGUE))).setBuf (sampleDatetime gnss) := by
  unfold writeGpxSampleToSd writeFormattedSampleDatetime trkpt
  cases gnss.altitude_isValid <;> cases gnss.speed_isValid <;> cases gnss.course_isValid <;>
    cases gnss.satellites_isValid <;> cases gnss.hdop_isValid <;>
    (simp only [if_true, if_false, Bool.false_eq_true]
     simp only [Logger.gpxPrint_gpxPrint]
     simp only [Logger.setBuf_buf]
     simp only [Logger.setBuf_gpxPrint]
     simp only [Logger.gpxPrint_gpxPrint, Logger.setGpxFile_gpxPrint]
     simp only [File.flush]
     rw [Logger.setGpxFile_self]
     simp only [File.print_print]
     simp only [List.append_nil, List.append_assoc])

end SourceLemmas


section More
variable {D : Type}

theorem GPX_EPILOGUE_length : GPX_EPILOGUE.length = 24 := by decide

theorem GPX_PREAMBLE_length : GPX_PREAMBLE.length = 74 := by decide

theorem openTimestampedFile_fields (SD : SDClass) (gnss : Gnss D) (sfx : List Char)
    (s : Logger) :
    (openTimestampedFile SD gnss sfx s).gpxFile = SD.openFile (timestampedPath gnss sfx)
    ∧ (openTimestampedFile SD gnss sfx s).sd_avail = s.sd_avail
    ∧ (openTimestampedFile SD gnss sfx s).prevTime = s.prevTime := by
  unfold openTimestampedFile
  simp only [Logger.setBuf, Logger.serialPrint, Logger.serialPrintln, Logger.call,
    Logger.setGpxFile]
  split <;> split <;> simp

theorem startFilesOnSdNoSync_fields (SD : SDClass) (gnss : Gnss D) (s : Logger) :
    (startFilesOnSdNoSync SD gnss s).gpxFile
        = (SD.openFile (timestampedPath gnss ".gpx".toList)).print
            (GPX_PREAMBLE ++ GPX_EPILOGUE)
    ∧ (startFilesOnSdNoSync SD gnss s).sd_avail = s.sd_avail
    ∧ (startFilesOnSdNoSync SD gnss s).prevTime = s.prevTime := by
  unfold startFilesOnSdNoSync
  simp only [Logger.gpxPrint_gpxPrint]
  simp only [Logger.gpxPrint, Logger.setGpxFile]
  refine ⟨?_, ?_, ?_⟩
  · simp only [(openTimestampedFile_fields SD gnss _ _).1]
  · simp only [(openTimestampedFile_fields SD gnss _ _).2.1]
    split
    · split <;> rfl
    · rfl
  · simp only [(openTimestampedFile_fields SD gnss _ _).2.2]
    split
    · split <;> rfl
    · rfl


theorem seekTarget_eq (f : File) (base : List Char) (ho : f.isOpen = true)
    (hc : f.content = base ++ GPX_EPILOGUE) : seekTarget f = (base.length : Int) := by
  unfold seekTarget File.size SEEK_TRKPT_BACKWARDS
  simp only [ho, if_true, hc, List.length_append, GPX_EPILOGUE_length]
  push_cast
  omega

theorem File.seek_at_epilogue (f : File) (base : List Char) (ho : f.isOpen = true)
    (hc : f.content = base ++ GPX_EPILOGUE) :
    f.seek (seekTarget f) = { f with cursor := base.length } := by
  rw [seekTarget_eq f base ho hc]
  unfold File.seek
  have h1 : decide ((0 : Int) ≤ (base.length : Int)) = true := by simp
  have h2 : decide ((base.length : Int) ≤ (f.content.length : Int)) = true := by
    simp [hc]
  simp only [ho, h1, h2, Bool.and_self, if_true, Int.toNat_ofNat]

/-- One seek and one print on a file that ends with the closing fragment. -/
theorem File.seek_print_epilogue (f : File) (base p : List Char) (ho : f.isOpen = true)
    (hc : f.content = base ++ GPX_EPILOGUE) :
    (f.seek (seekTarget f)).print (p ++ GPX_EPILOGUE) =
      { isOpen := true
        content := base ++ p ++ GPX_EPILOGUE
        cursor := (base ++ p ++ GPX_EPILOGUE).length } := by
  rw [File.seek_at_epilogue f base ho hc]
  unfold File.print
  simp only [ho, if_true, hc]
  have e1 : List.take base.length (base ++ GPX_EPILOGUE) = base := List.take_left' rfl
  have e2 : List.drop (base.length + (p ++ GPX_EPILOGUE).length) (base ++ GPX_EPILOGUE) = [] := by
    apply List.drop_eq_nil_of_le
    simp only [List.length_append]
    omega
  rw [e1, e2]
  simp [List.append_assoc, Nat.add_assoc]


theorem appends_content (dtostrf : D → Nat → Nat → List Char) (fixes : List (Gnss D)) :
    ∀ (st : Logger) (base : List Char), st.gpxFile.isOpen = true →
      st.gpxFile.content = base ++ GPX_EPILOGUE →
      (fixes.foldl (fun st g => writeGpxSampleToSd dtostrf g st) st).gpxFile.content
        = base ++ (fixes.map (trkpt dtostrf)).flatten ++ GPX_EPILOGUE := by
  induction fixes with
  | nil => intro st base _ hc; simpa using hc
  | cons g gs ih =>
    intro st base ho hc
    rw [List.foldl_cons]
    have hstep : (writeGpxSampleToSd dtostrf g st).gpxFile =
        { isOpen := true
          content := base ++ trkpt dtostrf g ++ GPX_EPILOGUE
          cursor := (base ++ trkpt dtostrf g ++ GPX_EPILOGUE).length } := by
      rw [writeGpxSampleToSd_eq]
      exact File.seek_print_epilogue st.gpxFile base _ ho hc
    have := ih (writeGpxSampleToSd dtostrf g st) (base ++ trkpt dtostrf g)
      (by rw [hstep]) (by rw [hstep])
    rw [this]
    simp [List.append_assoc]

/-- C1. A session created on a new empty file and followed by one append per fix holds
the preamble, the point elements of the fixes in order, and the closing fragment. -/
theorem track_file_after_appends (dtostrf : D → Nat → Nat → List Char) (SD : SDClass)
    (gnss0 : Gnss D) (s : Logger) (fixes : List (Gnss D))
    (hnew : SD.openFile (timestampedPath gnss0 ".gpx".toList) = File.created) :
    (fixes.foldl (fun st g => writeGpxSampleToSd dtostrf g st)
        (startFilesOnSdNoSync SD gnss0 s)).gpxFile.content
      = GPX_PREAMBLE ++ (fixes.map (trkpt dtostrf)).flatten ++ GPX_EPILOGUE := by
  have h0 := (startFilesOnSdNoSync_fields SD gnss0 s).1
  rw [hnew] at h0
  apply appends_content
  · rw [h0]; simp [File.print, File.created]
  · rw [h0]; simp [File.print, File.created]

theorem track_file_after_appends_witness :
    freshCard.openFile (timestampedPath tokyoFix ".gpx".toList) = File.created
    ∧ ([tokyoFix, tokyoFix].foldl (fun st g => writeGpxSampleToSd padReading g st)
        (startFilesOnSdNoSync freshCard tokyoFix Logger.init)).gpxFile.content
      = GPX_PREAMBLE ++ ([tokyoFix, tokyoFix].map (trkpt padReading)).flatten ++ GPX_EPILOGUE :=
  ⟨rfl, track_file_after_appends padReading freshCard tokyoFix Logger.init
    [tokyoFix, tokyoFix] rfl⟩


/-- C2. When session creation opens a new empty file, the file holds on return the
three-line preamble immediately followed by the closing fragment, and nothing else. -/
theorem skeleton_on_create (SD : SDClass) (gnss : Gnss D) (s : Logger)
    (hnew : SD.openFile (timestampedPath gnss ".gpx".toList) = File.created) :
    (startFilesOnSdNoSync SD gnss s).gpxFile.content
      = "<?xml version=\"1.0\" encoding=\"UTF-8\"?>\n<gpx version=\"1.0\">\n\t<trk><trkseg>\n".toList
          ++ "\t</trkseg></trk>\n</gpx>\n".toList := by
  rw [(startFilesOnSdNoSync_fields SD gnss s).1, hnew]
  simp [File.print, File.created, GPX_PREAMBLE, GPX_EPILOGUE]

theorem skeleton_on_create_witness :
    freshCard.openFile (timestampedPath tokyoFix ".gpx".toList) = File.created
    ∧ (startFilesOnSdNoSync freshCard tokyoFix Logger.init).gpxFile.content
      = "<?xml version=\"1.0\" encoding=\"UTF-8\"?>\n<gpx version=\"1.0\">\n\t<trk><trkseg>\n".toList
          ++ "\t</trkseg></trk>\n</gpx>\n".toList :=
  ⟨rfl, skeleton_on_create freshCard tokyoFix Logger.init rfl⟩

/-- C3. On an open file that ends with the closing fragment, one append keeps every byte
before the old closing fragment, puts the point element followed by a fresh closing
fragment in the place of the old one, and makes the file longer by the length of the
point element. -/
theorem append_frame (dtostrf : D → Nat → Nat → List Char) (gnss : Gnss D) (s : Logger)
    (base : List Char) (ho : s.gpxFile.isOpen = true)
    (hc : s.gpxFile.content = base ++ GPX_EPILOGUE) :
    (writeGpxSampleToSd dtostrf gnss s).gpxFile.content
        = base ++ trkpt dtostrf gnss ++ GPX_EPILOGUE
    ∧ (writeGpxSampleToSd dtostrf gnss s).gpxFile.content.take
          (s.gpxFile.content.length - GPX_EPILOGUE.length)
        = s.gpxFile.content.take (s.gpxFile.content.length - GPX_EPILOGUE.length)
    ∧ (writeGpxSampleToSd dtostrf gnss s).gpxFile.content.drop
          (s.gpxFile.content.length - GPX_EPILOGUE.length)
        = trkpt dtostrf gnss ++ GPX_EPILOGUE
    ∧ (writeGpxSampleToSd dtostrf gnss s).gpxFile.content.length
        = s.gpxFile.content.length + (trkpt dtostrf gnss).length := by
  have hstep : (writeGpxSampleToSd dtostrf gnss s).gpxFile.content
      = base ++ trkpt dtostrf gnss ++ GPX_EPILOGUE := by
    rw [writeGpxSampleToSd_eq]
    exact congrArg File.content (File.seek_print_epilogue s.gpxFile base _ ho hc)
  have hlen : s.gpxFile.content.length - GPX_EPILOGUE.length = base.length := by
    simp [hc]
  refine ⟨hstep, ?_, ?_, ?_⟩
  · rw [hlen, hstep, hc, List.append_assoc, List.take_left' rfl, List.take_left' rfl]
  · rw [hlen, hstep, List.append_assoc, List.drop_left' rfl]
  · rw [hstep, hc]; simp only [List.length_append]; omega

theorem append_frame_witness :
    skeletonFile.isOpen = true
    ∧ skeletonFile.content = GPX_PREAMBLE ++ GPX_EPILOGUE
    ∧ (writeGpxSampleToSd padReading tokyoFix
          (Logger.init.setGpxFile skeletonFile)).gpxFile.content.length
        = (Logger.init.setGpxFile skeletonFile).gpxFile.content.length
            + (trkpt padReading tokyoFix).length :=
  ⟨by decide, by decide,
    (append_frame padReading tokyoFix (Logger.init.setGpxFile skeletonFile) GPX_PREAMBLE
      (by decide) (by decide)).2.2.2⟩


set_option maxRecDepth 100000 in
/-- C4, as stated, fails: on the 98-byte skeleton file the append seeks to byte 74, the
first byte of the closing fragment, and not to 98 - 24 - 1 = 73. -/
theorem seek_minus_one_refuted :
    seekTarget skeletonFile ≠ (skeletonFile.size : Int) - (GPX_EPILOGUE.length : Int) - 1
    ∧ (skeletonFile.seek (seekTarget skeletonFile)).cursor
        ≠ skeletonFile.size - GPX_EPILOGUE.length - 1
    ∧ (skeletonFile.seek (seekTarget skeletonFile)).cursor = 74
    ∧ skeletonFile.size - GPX_EPILOGUE.length - 1 = 73 := by
  decide

/-- C4, amended. On an open file of at least 24 bytes the append seeks to the file
length minus the length of the closing fragment, with no further `- 1`, and prints the
point element and the closing fragment from there. -/
theorem seek_to_closing_fragment (dtostrf : D → Nat → Nat → List Char) (gnss : Gnss D)
    (s : Logger) (ho : s.gpxFile.isOpen = true)
    (hsz : GPX_EPILOGUE.length ≤ s.gpxFile.size) :
    seekTarget s.gpxFile = (s.gpxFile.size : Int) - (GPX_EPILOGUE.length : Int)
    ∧ (s.gpxFile.seek (seekTarget s.gpxFile)).cursor
        = s.gpxFile.size - GPX_EPILOGUE.length
    ∧ (writeGpxSampleToSd dtostrf gnss s).gpxFile
        = File.print { s.gpxFile with cursor := s.gpxFile.size - GPX_EPILOGUE.length }
            (trkpt dtostrf gnss ++ GPX_EPILOGUE) := by
  have hsize : s.gpxFile.size = s.gpxFile.content.length := by simp [File.size, ho]
  rw [GPX_EPILOGUE_length] at hsz ⊢
  have htarget : seekTarget s.gpxFile = ((s.gpxFile.size - 24 : Nat) : Int) := by
    unfold seekTarget SEEK_TRKPT_BACKWARDS; omega
  have hseek : s.gpxFile.seek (seekTarget s.gpxFile)
      = { s.gpxFile with cursor := s.gpxFile.size - 24 } := by
    rw [htarget]
    unfold File.seek
    have h1 : decide ((0 : Int) ≤ ((s.gpxFile.size - 24 : Nat) : Int)) = true := by simp
    have h2 : decide (((s.gpxFile.size - 24 : Nat) : Int) ≤ (s.gpxFile.content.length : Int))
        = true := by
      rw [← hsize]; simp
    simp only [ho, h1, h2, Bool.and_self, if_true, Int.toNat_ofNat]
  refine ⟨?_, ?_, ?_⟩
  · rw [htarget]; omega
  · rw [hseek]
  · rw [writeGpxSampleToSd_eq, hseek]; rfl

theorem seek_to_closing_fragment_witness :
    skeletonFile.isOpen = true ∧ GPX_EPILOGUE.length ≤ skeletonFile.size
    ∧ (skeletonFile.seek (seekTarget skeletonFile)).cursor
        = skeletonFile.size - GPX_EPILOGUE.length :=
  ⟨by decide, by decide,
    (seek_to_closing_fragment padReading tokyoFix (Logger.init.setGpxFile skeletonFile)
      (by decide) (by decide)).2.1⟩

/-- C5. A `Logger_loop` call whose fix is not valid changes nothing, in track-logging mode
as in any other: the file, the handle, `prevTime` and the rest of the state are what they
were, whatever the clock and `prevTime` are. -/
theorem invalid_fix_changes_nothing (SAMPLE_INTERVAL : Nat)
    (dtostrf : D → Nat → Nat → List Char) (settings_logger : LoggerMode) (SD : SDClass)
    (gnss : Gnss D) (now : Nat) (s : Logger) (hfix : gnss.isValidGNSSFix = false) :
    Logger_loop SAMPLE_INTERVAL dtostrf settings_logger SD gnss now s = s := by
  unfold Logger_loop
  cases settings_logger <;> simp [hfix]


theorem invalid_fix_changes_nothing_witness :
    noFix.isValidGNSSFix = false
    ∧ Logger_loop 1 padReading .LOGGER_SD freshCard noFix 1000 openSession = openSession :=
  ⟨rfl, invalid_fix_changes_nothing 1 padReading .LOGGER_SD freshCard noFix 1000
    openSession rfl⟩

theorem sampleDatetime_example :
    fmt0d 4 ((2024 : Nat) : Int) ++ "-".toList ++ fmt0d 2 ((3 : Nat) : Int) ++ "-".toList
      ++ fmt0d 2 ((1 : Nat) : Int) ++ "T".toList ++ fmt0d 2 (((10 : Nat) : Int) + TimeZone)
      ++ ":".toList ++ fmt0d 2 ((15 : Nat) : Int) ++ ":".toList ++ fmt0d 2 ((30 : Nat) : Int)
      ++ ".".toList ++ fmt0d 3 ((0 : Nat) : Int) ++ "Z".toList
    = "2024-03-01T19:15:30.000Z".toList := by
  decide

set_option maxRecDepth 100000 in
/-- C6. One append prints, from the seek position on, the opening tag with `lat` and
`lon`, the `<time>` child, then `<ele>`, `<speed>`, `<course>`, `<sat>`, `<hdop>` in this
order, each present exactly when its field is valid and absent without a byte otherwise,
then the closing tag and the closing fragment. A fix on 2024-03-01 at 10:15:30.00 with no
valid optional field gives only `lat`, `lon` and `<time>2024-03-01T19:15:30.000Z</time>`. -/
theorem point_element_text (dtostrf : D → Nat → Nat → List Char) :
    (∀ (gnss : Gnss D) (s : Logger),
      (writeGpxSampleToSd dtostrf gnss s).gpxFile =
        (s.gpxFile.seek (seekTarget s.gpxFile)).print
          (("\t\t<trkpt lat=\"".toList ++ trim (dtostrf gnss.location_lat 10 6)
              ++ "\" lon=\"".toList ++ trim (dtostrf gnss.location_lng 10 6)
              ++ "\">".toList
              ++ "<time>".toList ++ sampleDatetime gnss ++ "</time>".toList
              ++ (if gnss.altitude_isValid then
                    "<ele>".toList ++ trim (dtostrf gnss.altitude_value 5 2)
                      ++ "</ele>".toList
                  else [])
              ++ (if gnss.speed_isValid then
                    "<speed>".toList ++ trim (dtostrf gnss.speed_value 5 1)
                      ++ "</speed>".toList
                  else [])
              ++ (if gnss.course_isValid then
                    "<course>".toList ++ trim (dtostrf gnss.course_value 5 1)
                      ++ "</course>".toList
                  else [])
              ++ (if gnss.satellites_isValid then
                    "<sat>".toList ++ decimal gnss.satellites_value ++ "</sat>".toList
                  else [])
              ++ (if gnss.hdop_isValid then
                    "<hdop>".toList ++ trim (dtostrf gnss.hdop_hdop 5 2)
                      ++ "</hdop>".toList
                  else [])
              ++ "</trkpt>\n".toList)
            ++ "\t</trkseg></trk>\n</gpx>\n".toList))
    ∧ (∀ (lat lng alt spd crs hd : D) (sat : Nat) (valid : Bool) (s : Logger),
      (writeGpxSampleToSd dtostrf
          { location_lat := lat, location_lng := lng
            altitude_isValid := false, altitude_value := alt
            speed_isValid := false, speed_value := spd
            course_isValid := false, course_value := crs
            satellites_isValid := false, satellites_value := sat
            hdop_isValid := false, hdop_hdop := hd
            date_year := 2024, date_month := 3, date_day := 1
            time_hour := 10, time_minute := 15, time_second := 30, time_centisecond := 0
            isValidGNSSFix := valid } s).gpxFile =
        (s.gpxFile.seek (seekTarget s.gpxFile)).print
          ("\t\t<trkpt lat=\"".toList ++ trim (dtostrf lat 10 6)
            ++ "\" lon=\"".toList ++ trim (dtostrf lng 10 6)
            ++ "\"><time>2024-03-01T19:15:30.000Z</time></trkpt>\n".toList
            ++ "\t</trkseg></trk>\n</gpx>\n".toList)) := by
  constructor
  · intro gnss s
    rw [writeGpxSampleToSd_eq]
    rfl
  · intro lat lng alt spd crs hd sat valid s
    rw [writeGpxSampleToSd_eq]
    unfold trkpt
    rw [show sampleDatetime
          ({ location_lat := lat, location_lng := lng
             altitude_isValid := false, altitude_value := alt
             speed_isValid := false, speed_value := spd
             course_isValid := false, course_value := crs
             satellites_isValid := false, satellites_value := sat
             hdop_isValid := false, hdop_hdop := hd
             date_year := 2024, date_month := 3, date_day := 1
             time_hour := 10, time_minute := 15, time_second := 30, time_centisecond := 0
             isValidGNSSFix := valid } : Gnss D)
        = "2024-03-01T19:15:30.000Z".toList from sampleDatetime_example]
    simp only [if_false, Bool.false_eq_true, List.append_nil, List.append_assoc]
    rfl

/-! ## Decimal digits -/

theorem toDigitsCore_step (f n : Nat) (ds : List Char) :
    Nat.toDigitsCore 10 (f + 1) n ds =
      if n / 10 = 0 then Nat.digitChar (n % 10) :: ds
      else Nat.toDigitsCore 10 f (n / 10) (Nat.digitChar (n % 10) :: ds) := by
  simp [Nat.toDigitsCore]

theorem toDigitsCore_acc (f : Nat) : ∀ (n : Nat) (ds : List Char),
    Nat.toDigitsCore 10 f n ds = Nat.toDigitsCore 10 f n [] ++ ds := by
  induction f with
  | zero => intro n ds; simp [Nat.toDigitsCore]
  | succ f ih =>
    intro n ds
    rw [toDigitsCore_step, toDigitsCore_step]
    split
    · rfl
    · rw [ih _ (_ :: ds), ih _ [_]]; simp

theorem toDigitsCore_fuel (f : Nat) : ∀ (g n : Nat), n < f → n < g →
    Nat.toDigitsCore 10 f n [] = Nat.toDigitsCore 10 g n [] := by
  induction f with
  | zero => intro g n h; omega
  | succ f ih =>
    intro g n hf hg
    obtain ⟨g, rfl⟩ : ∃ k, g = k + 1 := ⟨g - 1, by omega⟩
    rw [toDigitsCore_step, toDigitsCore_step]
    split
    · rfl
    · rw [toDigitsCore_acc f, toDigitsCore_acc g, ih g (n / 10) (by omega) (by omega)]

/-- The decimal digits of a number: the digits of its tenth part, then its last digit. -/
theorem decimal_step (n : Nat) :
    decimal n = if n < 10 then [Nat.digitChar n]
      else decimal (n / 10) ++ [Nat.digitChar (n % 10)] := by
  unfold decimal Nat.toDigits
  rw [toDigitsCore_step]
  split
  · rename_i h
    have : n < 10 := by omega
    rw [if_pos this, Nat.mod_eq_of_lt this]
  · rename_i h
    have : ¬ n < 10 := by omega
    rw [if_neg this, toDigitsCore_acc, toDigitsCore_fuel n (n / 10 + 1) (n / 10) (by omega) (by omega)]

theorem decimal_lt_10 (n : Nat) (h : n < 10) : decimal n = [Nat.digitChar n] := by
  rw [decimal_step, if_pos h]

theorem decimal_lt_100 (n : Nat) (h0 : 10 ≤ n) (h : n < 100) : decimal n = digits2 n := by
  rw [decimal_step, if_neg (by omega), decimal_lt_10 _ (by omega)]
  have : n / 10 % 10 = n / 10 := by omega
  simp [digits2, this]

theorem decimal_lt_1000 (n : Nat) (h0 : 100 ≤ n) (h : n < 1000) : decimal n = digits3 n := by
  rw [decimal_step, if_neg (by omega), decimal_lt_100 _ (by omega) (by omega)]
  have e1 : n / 10 / 10 % 10 = n / 100 % 10 := by omega
  simp [digits2, digits3, e1]

theorem decimal_lt_10000 (n : Nat) (h0 : 1000 ≤ n) (h : n < 10000) :
    decimal n = digits4 n := by
  rw [decimal_step, if_neg (by omega), decimal_lt_1000 _ (by omega) (by omega)]
  have e1 : n / 10 / 100 % 10 = n / 1000 % 10 := by omega
  have e2 : n / 10 / 10 % 10 = n / 100 % 10 := by omega
  simp [digits3, digits4, e1, e2]

theorem zeroPad2 (n : Nat) (h : n < 100) : zeroPad 2 n = digits2 n := by
  unfold zeroPad digits2
  rw [decimal_step n]
  split
  · rename_i h1
    have : n / 10 % 10 = 0 := by omega
    rw [this, Nat.mod_eq_of_lt h1]; rfl
  · rename_i h1
    rw [decimal_step (n / 10), if_pos (by omega)]
    have : n / 10 % 10 = n / 10 := by omega
    rw [this]; rfl

/-- A number of three digits printed with `%02d` takes its three digits. -/
theorem zeroPad2_three (n : Nat) (h0 : 100 ≤ n) (h : n < 1000) : zeroPad 2 n = digits3 n := by
  unfold zeroPad
  rw [decimal_lt_1000 n h0 h]; rfl

/-- A number of four digits printed with `%02d` takes its four digits. -/
theorem zeroPad2_four (n : Nat) (h0 : 1000 ≤ n) (h : n < 10000) :
    zeroPad 2 n = digits4 n := by
  unfold zeroPad
  rw [decimal_lt_10000 n h0 h]; rfl

theorem zeroPad3 (n : Nat) (h : n < 1000) : zeroPad 3 n = digits3 n := by
  unfold zeroPad
  rcases Nat.lt_or_ge n 10 with h1 | h1
  · rw [decimal_lt_10 n h1]
    have e1 : n / 100 % 10 = 0 := by omega
    have e2 : n / 10 % 10 = 0 := by omega
    simp [digits3, e1, e2, Nat.mod_eq_of_lt h1]
    decide
  · rcases Nat.lt_or_ge n 100 with h2 | h2
    · rw [decimal_lt_100 n h1 h2]
      have e1 : n / 100 % 10 = 0 := by omega
      simp [digits2, digits3, e1]
      decide
    · rw [decimal_lt_1000 n h2 h]; rfl

theorem zeroPad4 (n : Nat) (h : n < 10000) : zeroPad 4 n = digits4 n := by
  unfold zeroPad
  rcases Nat.lt_or_ge n 10 with h1 | h1
  · rw [decimal_lt_10 n h1]
    have e0 : n / 1000 % 10 = 0 := by omega
    have e1 : n / 100 % 10 = 0 := by omega
    have e2 : n / 10 % 10 = 0 := by omega
    simp [digits4, e0, e1, e2, Nat.mod_eq_of_lt h1]
    decide
  · rcases Nat.lt_or_ge n 100 with h2 | h2
    · rw [decimal_lt_100 n h1 h2]
      have e0 : n / 1000 % 10 = 0 := by omega
      have e1 : n / 100 % 10 = 0 := by omega
      simp [digits2, digits4, e0, e1]
      decide
    · rcases Nat.lt_or_ge n 1000 with h3 | h3
      · rw [decimal_lt_1000 n h2 h3]
        have e0 : n / 1000 % 10 = 0 := by omega
        simp [digits3, digits4, e0]
        decide
      · rw [decimal_lt_10000 n h3 h]; rfl

theorem fmt0d_nat (w n : Nat) : fmt0d w (n : Int) = zeroPad w n := by
  unfold fmt0d
  rw [if_neg (by omega)]; simp

theorem fmt0d_hour (w n : Nat) : fmt0d w ((n : Int) + 9) = zeroPad w (n + 9) := by
  have : (n : Int) + 9 = ((n + 9 : Nat) : Int) := by push_cast; rfl
  rw [this, fmt0d_nat]

theorem fmt0d_TimeZone (w n : Nat) : fmt0d w ((n : Int) + TimeZone) = zeroPad w (n + 9) := by
  unfold TimeZone
  exact fmt0d_hour w n

/-- The timestamp text, digit by digit, for fields in their printing ranges. -/
theorem sampleDatetime_digits (gnss : Gnss D)
    (hy : gnss.date_year ≤ 9999) (hmo : gnss.date_month ≤ 99) (hd : gnss.date_day ≤ 99)
    (hh : gnss.time_hour ≤ 90) (hmi : gnss.time_minute ≤ 99) (hs : gnss.time_second ≤ 99)
    (hc : gnss.time_centisecond ≤ 999) :
    sampleDatetime gnss
      = digits4 gnss.date_year ++ '-' :: digits2 gnss.date_month
          ++ '-' :: digits2 gnss.date_day ++ 'T' :: digits2 (gnss.time_hour + 9)
          ++ ':' :: digits2 gnss.time_minute ++ ':' :: digits2 gnss.time_second
          ++ '.' :: digits3 gnss.time_centisecond ++ ['Z'] := by
  unfold sampleDatetime
  rw [fmt0d_nat, fmt0d_nat, fmt0d_nat, fmt0d_TimeZone, fmt0d_nat, fmt0d_nat, fmt0d_nat,
    zeroPad4 _ (by omega), zeroPad2 gnss.date_month (by omega),
    zeroPad2 gnss.date_day (by omega), zeroPad2 (gnss.time_hour + 9) (by omega),
    zeroPad2 gnss.time_minute (by omega), zeroPad2 gnss.time_second (by omega),
    zeroPad3 _ (by omega)]
  simp only [String.toList, List.append_assoc, List.singleton_append, List.cons_append,
    List.nil_append]

theorem writeFormattedSampleDatetime_gpxFile (gnss : Gnss D) (s : Logger) :
    (writeFormattedSampleDatetime gnss s).gpxFile = s.gpxFile.print (sampleDatetime gnss) := by
  unfold writeFormattedSampleDatetime
  simp only [Logger.setBuf_buf, Logger.setBuf_gpxPrint]
  rfl

/-- C10. For a fix with year in 0..9999, month, day, minute, second in 0..99, hour in 0..23
and centisecond in 0..99, `writeFormattedSampleDatetime` prints on the file exactly the
24 characters `YYYY-MM-DDThh:mm:ss.mmmZ`, every field in zero-padded decimal: `hh` is the
two digits of hour + 9, not reduced modulo 24 and with the date fields untouched (hour 20
gives `29`), and `mmm` is the centisecond value itself on three digits, so a `0` followed
by its two digits. The fix of 2024-03-01 at 10:15:30.00 gives
`2024-03-01T19:15:30.000Z`. -/
theorem sample_datetime_text (gnss : Gnss D) (s : Logger)
    (hy : gnss.date_year ≤ 9999) (hmo : gnss.date_month ≤ 99) (hd : gnss.date_day ≤ 99)
    (hh : gnss.time_hour ≤ 23) (hmi : gnss.time_minute ≤ 99) (hs : gnss.time_second ≤ 99)
    (hc : gnss.time_centisecond ≤ 99) :
    (writeFormattedSampleDatetime gnss s).gpxFile
        = s.gpxFile.print
            (digits4 gnss.date_year ++ '-' :: digits2 gnss.date_month
              ++ '-' :: digits2 gnss.date_day ++ 'T' :: digits2 (gnss.time_hour + 9)
              ++ ':' :: digits2 gnss.time_minute ++ ':' :: digits2 gnss.time_second
              ++ '.' :: digits3 gnss.time_centisecond ++ ['Z'])
    ∧ (digits4 gnss.date_year ++ '-' :: digits2 gnss.date_month
              ++ '-' :: digits2 gnss.date_day ++ 'T' :: digits2 (gnss.time_hour + 9)
              ++ ':' :: digits2 gnss.time_minute ++ ':' :: digits2 gnss.time_second
              ++ '.' :: digits3 gnss.time_centisecond ++ ['Z']).length = 24
    ∧ digits3 gnss.time_centisecond = '0' :: digits2 gnss.time_centisecond
    ∧ (gnss.time_hour = 20 → digits2 (gnss.time_hour + 9) = ['2', '9'])
    ∧ sampleDatetime tokyoFix = "2024-03-01T19:15:30.000Z".toList := by
  have htext := sampleDatetime_digits gnss hy hmo hd (by omega) hmi hs (by omega)
  have hprint := writeFormattedSampleDatetime_gpxFile gnss s
  refine ⟨?_, ?_, ?_, ?_, ?_⟩
  · rw [hprint, htext]
  · simp [digits2, digits3, digits4]
  · have e1 : gnss.time_centisecond / 100 % 10 = 0 := by omega
    simp only [digits2, digits3, e1]
    rfl
  · intro h; rw [h]; decide
  · exact sampleDatetime_example

theorem sample_datetime_text_witness :
    tokyoFix.date_year ≤ 9999 ∧ tokyoFix.time_hour ≤ 23
    ∧ (writeFormattedSampleDatetime tokyoFix openSession).gpxFile
        = openSession.gpxFile.print
            (digits4 tokyoFix.date_year ++ '-' :: digits2 tokyoFix.date_month
              ++ '-' :: digits2 tokyoFix.date_day ++ 'T' :: digits2 (tokyoFix.time_hour + 9)
              ++ ':' :: digits2 tokyoFix.time_minute ++ ':' :: digits2 tokyoFix.time_second
              ++ '.' :: digits3 tokyoFix.time_centisecond ++ ['Z']) :=
  ⟨by decide, by decide,
    (sample_datetime_text tokyoFix openSession (by decide) (by decide) (by decide)
      (by decide) (by decide) (by decide) (by decide)).1⟩

/-- The calls `openTimestampedFile` makes on the card, and what it leaves in `buf`. -/
theorem openTimestampedFile_sdCalls (SD : SDClass) (gnss : Gnss D) (sfx : List Char)
    (s : Logger) :
    (openTimestampedFile SD gnss sfx s).sdCalls
        = s.sdCalls ++ [.sdExists (timestampedPath gnss sfx), .sdOpen (timestampedPath gnss sfx)]
    ∧ (openTimestampedFile SD gnss sfx s).buf = timestampedPath gnss sfx := by
  unfold openTimestampedFile
  simp only [Logger.setBuf, Logger.serialPrint, Logger.serialPrintln, Logger.call,
    Logger.setGpxFile]
  split <;> split <;> simp

/-- The calls `startFilesOnSdNoSync` makes on the card, in order. -/
theorem startFilesOnSdNoSync_sdCalls (SD : SDClass) (gnss : Gnss D) (s : Logger) :
    (startFilesOnSdNoSync SD gnss s).sdCalls
      = s.sdCalls ++ SdCall.sdExists (dayDirectory gnss)
          :: (if SD.existsPath (dayDirectory gnss) then []
              else [SdCall.sdMkdir (dayDirectory gnss)])
          ++ [.sdExists (timestampedPath gnss ".gpx".toList),
              .sdOpen (timestampedPath gnss ".gpx".toList)] := by
  unfold startFilesOnSdNoSync
  simp only [Logger.gpxPrint_gpxPrint]
  simp only [Logger.gpxPrint, Logger.setGpxFile]
  simp only [(openTimestampedFile_sdCalls SD gnss _ _).1]
  simp only [Logger.setBuf, Logger.call, Logger.serialPrintln]
  cases SD.existsPath (dayDirectory gnss) <;> cases SD.mkdirOk (dayDirectory gnss) <;> simp

/-- The directory name, digit by digit, for a year of four digits. -/
theorem dayDirectory_digits (gnss : Gnss D) (hy0 : 1000 ≤ gnss.date_year)
    (hy : gnss.date_year ≤ 9999) (hmo : gnss.date_month ≤ 99) (hd : gnss.date_day ≤ 99) :
    dayDirectory gnss
      = '/' :: (digits4 gnss.date_year ++ digits2 gnss.date_month ++ digits2 gnss.date_day) := by
  unfold dayDirectory
  rw [fmt0d_nat, fmt0d_nat, fmt0d_nat, zeroPad2_four _ hy0 (by omega),
    zeroPad2 gnss.date_month (by omega), zeroPad2 gnss.date_day (by omega)]
  rfl

/-- The file path is the directory name, a slash, the three time fields and the suffix. -/
theorem timestampedPath_eq (gnss : Gnss D) (sfx : List Char) :
    timestampedPath gnss sfx
      = dayDirectory gnss ++ '/' :: (zeroPad 2 (gnss.time_hour + 9)
          ++ zeroPad 2 gnss.time_minute ++ zeroPad 2 gnss.time_second ++ sfx) := by
  unfold timestampedPath dayDirectory
  simp only [fmt0d_TimeZone, fmt0d_nat, String.toList, List.append_assoc, List.singleton_append, List.cons_append,
    List.nil_append]

/-- C11. For a fix with a year of four digits and month, day, hour, minute, second in
0..99, session creation uses the directory `/YYYYMMDD` and the file path
`/YYYYMMDD/HHMMSS.gpx`: the year on four digits, every other field zero-padded to two, `HH`
being hour + 9 (which takes three digits once it passes 99). These are the names handed to
`SD.exists`, `SD.mkdir` and `SD.open`. A session opened on 2024-03-01 at 10:15:30 gets
`/20240301/191530.gpx`. -/
theorem session_paths (SD : SDClass) (gnss : Gnss D) (s : Logger)
    (hy0 : 1000 ≤ gnss.date_year) (hy : gnss.date_year ≤ 9999)
    (hmo : gnss.date_month ≤ 99) (hd : gnss.date_day ≤ 99) (hh : gnss.time_hour ≤ 99)
    (hmi : gnss.time_minute ≤ 99) (hs : gnss.time_second ≤ 99) :
    dayDirectory gnss
        = '/' :: (digits4 gnss.date_year ++ digits2 gnss.date_month ++ digits2 gnss.date_day)
    ∧ timestampedPath gnss ".gpx".toList
        = dayDirectory gnss ++ '/' ::
            ((if gnss.time_hour + 9 < 100 then digits2 (gnss.time_hour + 9)
              else digits3 (gnss.time_hour + 9))
            ++ digits2 gnss.time_minute ++ digits2 gnss.time_second ++ ".gpx".toList)
    ∧ (startFilesOnSdNoSync SD gnss s).sdCalls
        = s.sdCalls ++ SdCall.sdExists (dayDirectory gnss)
            :: (if SD.existsPath (dayDirectory gnss) then []
                else [SdCall.sdMkdir (dayDirectory gnss)])
            ++ [.sdExists (timestampedPath gnss ".gpx".toList),
                .sdOpen (timestampedPath gnss ".gpx".toList)]
    ∧ (startFilesOnSdNoSync SD gnss s).gpxFile
        = (SD.openFile (timestampedPath gnss ".gpx".toList)).print
            (GPX_PREAMBLE ++ GPX_EPILOGUE)
    ∧ dayDirectory tokyoFix = "/20240301".toList
    ∧ timestampedPath tokyoFix ".gpx".toList = "/20240301/191530.gpx".toList := by
  refine ⟨dayDirectory_digits gnss hy0 hy hmo hd, ?_, startFilesOnSdNoSync_sdCalls SD gnss s,
    (startFilesOnSdNoSync_fields SD gnss s).1, by decide, by decide⟩
  rw [timestampedPath_eq, zeroPad2 gnss.time_minute (by omega),
    zeroPad2 gnss.time_second (by omega)]
  split
  · rw [zeroPad2 _ (by omega)]
  · rw [zeroPad2_three _ (by omega) (by omega)]

theorem session_paths_witness :
    1000 ≤ tokyoFix.date_year ∧ tokyoFix.date_year ≤ 9999 ∧ tokyoFix.time_hour ≤ 99
    ∧ (startFilesOnSdNoSync freshCard tokyoFix Logger.init).gpxFile
        = (freshCard.openFile (timestampedPath tokyoFix ".gpx".toList)).print
            (GPX_PREAMBLE ++ GPX_EPILOGUE) :=
  ⟨by decide, by decide, by decide,
    (session_paths freshCard tokyoFix Logger.init (by decide) (by decide) (by decide)
      (by decide) (by decide) (by decide) (by decide)).2.2.2.1⟩

/-- A decimal digit is none of the characters that separate the parts of a path. -/
theorem digitChar_isDigit (d : Nat) (h : d < 10) : (Nat.digitChar d).isDigit = true := by
  interval_cases d <;> decide

/-- C17. For a fix with year in 2000..2099, month in 1..12, day in 1..31, hour in 0..23,
minute and second in 0..59, the directory name built by `startFilesOnSdNoSync` is a slash
and 8 digits, the file name built by `openTimestampedFile` is 6 digits (hour + 9 on two
digits), a dot and `gpx`, and the path of 20 characters left in `buf` fits the 32 bytes of
the buffer with its terminator. These are the names handed to the card. -/
theorem names_fit_short_limit (SD : SDClass) (gnss : Gnss D) (s : Logger)
    (hy0 : 2000 ≤ gnss.date_year) (hy : gnss.date_year ≤ 2099)
    (hmo0 : 1 ≤ gnss.date_month) (hmo : gnss.date_month ≤ 12)
    (hd0 : 1 ≤ gnss.date_day) (hd : gnss.date_day ≤ 31) (hh : gnss.time_hour ≤ 23)
    (hmi : gnss.time_minute ≤ 59) (hs : gnss.time_second ≤ 59) :
    dayDirectory gnss
        = '/' :: (digits4 gnss.date_year ++ digits2 gnss.date_month ++ digits2 gnss.date_day)
    ∧ (digits4 gnss.date_year ++ digits2 gnss.date_month ++ digits2 gnss.date_day).length = 8
    ∧ timestampedPath gnss ".gpx".toList
        = dayDirectory gnss ++ '/' ::
            ((digits2 (gnss.time_hour + 9) ++ digits2 gnss.time_minute
                ++ digits2 gnss.time_second) ++ '.' :: "gpx".toList)
    ∧ (digits2 (gnss.time_hour + 9) ++ digits2 gnss.time_minute
          ++ digits2 gnss.time_second).length = 6
    ∧ (∀ c ∈ digits4 gnss.date_year ++ digits2 gnss.date_month ++ digits2 gnss.date_day,
          c.isDigit = true)
    ∧ (∀ c ∈ digits2 (gnss.time_hour + 9) ++ digits2 gnss.time_minute
          ++ digits2 gnss.time_second, c.isDigit = true)
    ∧ (timestampedPath gnss ".gpx".toList).length = 20
    ∧ (openTimestampedFile SD gnss ".gpx".toList s).buf = timestampedPath gnss ".gpx".toList
    ∧ (dayDirectory gnss).length + 1 ≤ buf_capacity
    ∧ (timestampedPath gnss ".gpx".toList).length + 1 ≤ buf_capacity
    ∧ (startFilesOnSdNoSync SD gnss s).sdCalls
        = s.sdCalls ++ SdCall.sdExists (dayDirectory gnss)
            :: (if SD.existsPath (dayDirectory gnss) then []
                else [SdCall.sdMkdir (dayDirectory gnss)])
            ++ [.sdExists (timestampedPath gnss ".gpx".toList),
                .sdOpen (timestampedPath gnss ".gpx".toList)] := by
  have hdir := dayDirectory_digits gnss (by omega) (by omega) (by omega : gnss.date_month ≤ 99)
    (by omega : gnss.date_day ≤ 99)
  have hpath : timestampedPath gnss ".gpx".toList
      = dayDirectory gnss ++ '/' ::
          ((digits2 (gnss.time_hour + 9) ++ digits2 gnss.time_minute
              ++ digits2 gnss.time_second) ++ '.' :: "gpx".toList) := by
    rw [timestampedPath_eq, zeroPad2 gnss.time_minute (by omega),
      zeroPad2 gnss.time_second (by omega), zeroPad2 _ (by omega)]
    simp only [String.toList, List.append_assoc, List.singleton_append, List.cons_append,
      List.nil_append]
  have hlen : (timestampedPath gnss ".gpx".toList).length = 20 := by
    rw [hpath, hdir]; simp [digits2, digits4]
  have hdig : ∀ n, (Nat.digitChar (n % 10)).isDigit = true :=
    fun n => digitChar_isDigit _ (Nat.mod_lt _ (by decide))
  refine ⟨hdir, by simp [digits2, digits4], hpath, by simp [digits2], ?_, ?_, hlen,
    (openTimestampedFile_sdCalls SD gnss _ s).2, ?_, ?_, startFilesOnSdNoSync_sdCalls SD gnss s⟩
  · intro c hc
    simp only [digits2, digits4, List.mem_append, List.mem_cons, List.mem_singleton,
      List.not_mem_nil, or_false] at hc
    rcases hc with ((h | h | h | h) | h | h) | h | h <;> rw [h] <;> exact hdig _
  · intro c hc
    simp only [digits2, List.mem_append, List.mem_cons, List.mem_singleton,
      List.not_mem_nil, or_false] at hc
    rcases hc with (((h | h) | h | h) | h | h) <;> rw [h] <;> exact hdig _
  · rw [hdir]; simp [digits2, digits4, buf_capacity]
  · rw [hlen]; decide

theorem names_fit_short_limit_witness :
    2000 ≤ tokyoFix.date_year ∧ tokyoFix.date_year ≤ 2099 ∧ tokyoFix.time_hour ≤ 23
    ∧ (timestampedPath tokyoFix ".gpx".toList).length = 20 :=
  ⟨by decide, by decide, by decide,
    (names_fit_short_limit freshCard tokyoFix Logger.init (by decide) (by decide) (by decide)
      (by decide) (by decide) (by decide) (by decide) (by decide) (by decide)).2.2.2.2.2.2.1⟩

/-! ## The entry points -/

/-- A tick with storage available, a valid fix and no open session runs session creation
and nothing else. -/
theorem Logger_loop_no_session (SAMPLE_INTERVAL : Nat) (dtostrf : D → Nat → Nat → List Char)
    (SD : SDClass) (gnss : Gnss D) (now : Nat) (s : Logger) (hav : s.sd_avail ≠ 0)
    (hfix : gnss.isValidGNSSFix = true) (hclosed : s.gpxFile.isOpen = false) :
    Logger_loop SAMPLE_INTERVAL dtostrf .LOGGER_SD SD gnss now s
      = startFilesOnSdNoSync SD gnss s := by
  unfold Logger_loop
  simp [hav, hfix, hclosed]

/-- A tick with storage available, a valid fix and an open session: the throttle. -/
theorem Logger_loop_session (SAMPLE_INTERVAL : Nat) (dtostrf : D → Nat → Nat → List Char)
    (SD : SDClass) (gnss : Gnss D) (now : Nat) (s : Logger) (hav : s.sd_avail ≠ 0)
    (hfix : gnss.isValidGNSSFix = true) (hopen : s.gpxFile.isOpen = true) :
    Logger_loop SAMPLE_INTERVAL dtostrf .LOGGER_SD SD gnss now s
      = if SAMPLE_INTERVAL ≤ (now % 2 ^ 32 + (2 ^ 32 - s.prevTime % 2 ^ 32)) % 2 ^ 32 then
          writeGpxSampleToSd dtostrf gnss (s.setPrevTime (now % 2 ^ 32))
        else s := by
  unfold Logger_loop
  simp [hav, hfix, hopen]

/-- A tick with storage not available changes nothing. -/
theorem Logger_loop_unavailable (SAMPLE_INTERVAL : Nat) (dtostrf : D → Nat → Nat → List Char)
    (mode : LoggerMode) (SD : SDClass) (gnss : Gnss D) (now : Nat) (s : Logger)
    (hav : s.sd_avail = 0) :
    Logger_loop SAMPLE_INTERVAL dtostrf mode SD gnss now s = s := by
  unfold Logger_loop
  cases mode <;> simp [hav]

/-- A print on a handle that is not open writes nothing. -/
theorem File.print_closed (f : File) (text : List Char) (h : f.isOpen = false) :
    f.print text = f := by
  unfold File.print
  simp [h]

/-- C19. `trim` returns the part of the string from the first character that is neither a
space nor a tab: the string is a run of spaces and tabs followed by `trim s`, which is
empty or starts with another character, every character from there on is kept, and
trimming twice is trimming once. -/
theorem trim_is_suffix (s : List Char) :
    s = s.takeWhile (fun c => decide (c = ' ' ∨ c = '\t')) ++ trim s
    ∧ (∀ c ∈ s.takeWhile (fun c => decide (c = ' ' ∨ c = '\t')), c = ' ' ∨ c = '\t')
    ∧ trim s = s.dropWhile (fun c => decide (c = ' ' ∨ c = '\t'))
    ∧ trim s = s.drop (s.takeWhile (fun c => decide (c = ' ' ∨ c = '\t'))).length
    ∧ (trim s = [] ∨ ∃ c rest, trim s = c :: rest ∧ c ≠ ' ' ∧ c ≠ '\t')
    ∧ trim (trim s) = trim s := by
  have hdrop : ∀ l : List Char, trim l = l.dropWhile (fun c => decide (c = ' ' ∨ c = '\t')) := by
    intro l
    induction l with
    | nil => rfl
    | cons c cs ih =>
      unfold trim
      by_cases h : c = ' ' ∨ c = '\t'
      · rw [if_pos h, List.dropWhile_cons_of_pos (by simpa using h), ih]
      · rw [if_neg h, List.dropWhile_cons_of_neg (by simpa using h)]
  have hhead : trim s = [] ∨ ∃ c rest, trim s = c :: rest ∧ c ≠ ' ' ∧ c ≠ '\t' := by
    induction s with
    | nil => left; rfl
    | cons c cs ih =>
      unfold trim
      by_cases h : c = ' ' ∨ c = '\t'
      · rw [if_pos h]; exact ih
      · rw [if_neg h]; right
        exact ⟨c, cs, rfl, fun e => h (Or.inl e), fun e => h (Or.inr e)⟩
  refine ⟨?_, ?_, hdrop s, ?_, hhead, ?_⟩
  · rw [hdrop, List.takeWhile_append_dropWhile]
  · intro c hc
    simpa using List.mem_takeWhile_imp hc
  · rw [hdrop]
    have h := List.takeWhile_append_dropWhile (fun c => decide (c = ' ' ∨ c = '\t')) s
    have h2 := congrArg
      (List.drop (s.takeWhile (fun c => decide (c = ' ' ∨ c = '\t'))).length) h
    rw [List.drop_left' rfl] at h2
    exact h2
  · rcases hhead with h | ⟨c, rest, h, h1, h2⟩
    · rw [h]; rfl
    · rw [h]; unfold trim
      rw [if_neg (by rintro (e | e); exact h1 e; exact h2 e)]

/-- C15. When `settings->logger` is not `LOGGER_SD` (it is `LOGGER_OFF` or any other
value), `Logger_setup`, `Logger_loop` and `Logger_fini` return the state they were given:
`sd_avail`, the handle, `prevTime` are unchanged and no call is made on the card. -/
theorem disabled_mode_noop (SAMPLE_INTERVAL : Nat) (dtostrf : D → Nat → Nat → List Char)
    (mode : LoggerMode) (SD : SDClass) (gnss : Gnss D) (now : Nat) (s : Logger)
    (hmode : mode ≠ .LOGGER_SD) :
    Logger_setup mode SD gnss s = s
    ∧ Logger_loop SAMPLE_INTERVAL dtostrf mode SD gnss now s = s
    ∧ Logger_fini mode s = s := by
  cases mode with
  | LOGGER_OFF => exact ⟨rfl, rfl, rfl⟩
  | LOGGER_SD => exact absurd rfl hmode
  | other v => exact ⟨rfl, rfl, rfl⟩

theorem disabled_mode_noop_witness :
    LoggerMode.LOGGER_OFF ≠ LoggerMode.LOGGER_SD
    ∧ Logger_setup .LOGGER_OFF freshCard tokyoFix openSession = openSession
    ∧ Logger_loop 1 padReading .LOGGER_OFF freshCard tokyoFix 1000 openSession = openSession
    ∧ Logger_fini .LOGGER_OFF openSession = openSession :=
  ⟨by decide, disabled_mode_noop 1 padReading .LOGGER_OFF freshCard tokyoFix 1000 openSession
    (by decide)⟩

/-- C12. When `SD.begin` fails in `Logger_setup`, called with `sd_avail` still 0,
`sd_avail` stays 0, the handle is not touched and the only call made on the card is
`begin`; after that every run of `Logger_loop` calls, in any mode, with any fixes, clock
values and card answers, returns the state unchanged: no session is opened and no call is
made on the card. -/
theorem failed_begin_disables (SAMPLE_INTERVAL : Nat) (dtostrf : D → Nat → Nat → List Char)
    (SD : SDClass) (gnss : Gnss D) (s : Logger) (hs : s.sd_avail = 0)
    (hbegin : SD.beginOk = false) :
    (Logger_setup .LOGGER_SD SD gnss s).sd_avail = 0
    ∧ (Logger_setup .LOGGER_SD SD gnss s).gpxFile = s.gpxFile
    ∧ (Logger_setup .LOGGER_SD SD gnss s).prevTime = s.prevTime
    ∧ (Logger_setup .LOGGER_SD SD gnss s).sdCalls = s.sdCalls ++ [.sdBegin]
    ∧ ∀ (mode : LoggerMode) (ticks : List (SDClass × Gnss D × Nat)),
        Logger_loops SAMPLE_INTERVAL dtostrf mode ticks (Logger_setup .LOGGER_SD SD gnss s)
          = Logger_setup .LOGGER_SD SD gnss s := by
  have hsetup : Logger_setup .LOGGER_SD SD gnss s
      = (s.call .sdBegin).serialPrintln "SD Init failed!".toList := by
    unfold Logger_setup
    simp [hbegin]
  have hav : (Logger_setup .LOGGER_SD SD gnss s).sd_avail = 0 := by rw [hsetup]; exact hs
  refine ⟨hav, by rw [hsetup]; rfl, by rw [hsetup]; rfl, by rw [hsetup]; rfl, ?_⟩
  intro mode ticks
  generalize Logger_setup .LOGGER_SD SD gnss s = s1 at hav ⊢
  unfold Logger_loops
  induction ticks with
  | nil => rfl
  | cons tk rest ih =>
    rw [List.foldl_cons, Logger_loop_unavailable _ _ _ _ _ _ _ hav]
    exact ih

theorem failed_begin_disables_witness :
    Logger.init.sd_avail = 0 ∧ deadCard.beginOk = false
    ∧ Logger_loops 1 padReading .LOGGER_SD
          [(freshCard, tokyoFix, 1000), (freshCard, noFix, 1001), (freshCard, tokyoFix, 2000)]
          (Logger_setup .LOGGER_SD deadCard tokyoFix Logger.init)
        = Logger_setup .LOGGER_SD deadCard tokyoFix Logger.init :=
  ⟨rfl, rfl,
    (failed_begin_disables 1 padReading deadCard tokyoFix Logger.init rfl rfl).2.2.2.2
      .LOGGER_SD _⟩

/-- C13. When `SD.open` returns a handle that is not open, `startFilesOnSdNoSync` returns
with that handle in `gpxFile`, testing false, and its two prints have written nothing; the
next `Logger_loop` call with storage available and a valid fix does not append: it runs
`startFilesOnSdNoSync` again, which asks the card to open the file of that fix. -/
theorem failed_open_retried (SAMPLE_INTERVAL : Nat) (dtostrf : D → Nat → Nat → List Char)
    (SD : SDClass) (gnss : Gnss D) (s : Logger)
    (hopen : (SD.openFile (timestampedPath gnss ".gpx".toList)).isOpen = false) :
    (startFilesOnSdNoSync SD gnss s).gpxFile.isOpen = false
    ∧ (startFilesOnSdNoSync SD gnss s).gpxFile = SD.openFile (timestampedPath gnss ".gpx".toList)
    ∧ (startFilesOnSdNoSync SD gnss s).gpxFile.size = 0
    ∧ ∀ (SD2 : SDClass) (gnss2 : Gnss D) (now : Nat), s.sd_avail ≠ 0 →
        gnss2.isValidGNSSFix = true →
        Logger_loop SAMPLE_INTERVAL dtostrf .LOGGER_SD SD2 gnss2 now
            (startFilesOnSdNoSync SD gnss s)
          = startFilesOnSdNoSync SD2 gnss2 (startFilesOnSdNoSync SD gnss s)
        ∧ (Logger_loop SAMPLE_INTERVAL dtostrf .LOGGER_SD SD2 gnss2 now
            (startFilesOnSdNoSync SD gnss s)).sdCalls
          = (startFilesOnSdNoSync SD gnss s).sdCalls
              ++ SdCall.sdExists (dayDirectory gnss2)
              :: (if SD2.existsPath (dayDirectory gnss2) then []
                  else [SdCall.sdMkdir (dayDirectory gnss2)])
              ++ [.sdExists (timestampedPath gnss2 ".gpx".toList),
                  .sdOpen (timestampedPath gnss2 ".gpx".toList)] := by
  have hfile : (startFilesOnSdNoSync SD gnss s).gpxFile
      = SD.openFile (timestampedPath gnss ".gpx".toList) := by
    rw [(startFilesOnSdNoSync_fields SD gnss s).1, File.print_closed _ _ hopen]
  have hclosed : (startFilesOnSdNoSync SD gnss s).gpxFile.isOpen = false := by
    rw [hfile]; exact hopen
  refine ⟨hclosed, hfile, by simp [File.size, hclosed], ?_⟩
  intro SD2 gnss2 now hav hfix
  have hav1 : (startFilesOnSdNoSync SD gnss s).sd_avail ≠ 0 := by
    rw [(startFilesOnSdNoSync_fields SD gnss s).2.1]; exact hav
  have hloop := Logger_loop_no_session SAMPLE_INTERVAL dtostrf SD2 gnss2 now
    (startFilesOnSdNoSync SD gnss s) hav1 hfix hclosed
  exact ⟨hloop, by rw [hloop, startFilesOnSdNoSync_sdCalls]⟩

theorem failed_open_retried_witness :
    (readOnlyCard.openFile (timestampedPath tokyoFix ".gpx".toList)).isOpen = false
    ∧ (Logger.init.setSdAvail 1).sd_avail ≠ 0 ∧ tokyoFix.isValidGNSSFix = true
    ∧ (startFilesOnSdNoSync readOnlyCard tokyoFix (Logger.init.setSdAvail 1)).gpxFile.isOpen
        = false
    ∧ Logger_loop 1 padReading .LOGGER_SD freshCard tokyoFix 1000
          (startFilesOnSdNoSync readOnlyCard tokyoFix (Logger.init.setSdAvail 1))
        = startFilesOnSdNoSync freshCard tokyoFix
            (startFilesOnSdNoSync readOnlyCard tokyoFix (Logger.init.setSdAvail 1)) :=
  ⟨rfl, by decide, rfl,
    (failed_open_retried 1 padReading readOnlyCard tokyoFix (Logger.init.setSdAvail 1) rfl).1,
    ((failed_open_retried 1 padReading readOnlyCard tokyoFix
      (Logger.init.setSdAvail 1) rfl).2.2.2 freshCard tokyoFix 1000 (by decide) rfl).1⟩

/-- What `openTimestampedFile` sends to `Serial` comes after what was sent before. -/
theorem openTimestampedFile_serial (SD : SDClass) (gnss : Gnss D) (sfx : List Char)
    (s : Logger) : ∃ more, (openTimestampedFile SD gnss sfx s).serial = s.serial ++ more := by
  unfold openTimestampedFile
  simp only [Logger.setBuf, Logger.serialPrint, Logger.serialPrintln, Logger.call,
    Logger.setGpxFile]
  split <;> split <;> exact ⟨_, by simp only [List.append_assoc]; rfl⟩

/-- An append leaves `prevTime` and `sd_avail` alone. -/
theorem writeGpxSampleToSd_fields (dtostrf : D → Nat → Nat → List Char) (gnss : Gnss D)
    (s : Logger) :
    (writeGpxSampleToSd dtostrf gnss s).prevTime = s.prevTime
    ∧ (writeGpxSampleToSd dtostrf gnss s).sd_avail = s.sd_avail
    ∧ (writeGpxSampleToSd dtostrf gnss s).sdCalls = s.sdCalls := by
  rw [writeGpxSampleToSd_eq]
  exact ⟨rfl, rfl, rfl⟩

/-- C14, as stated, fails: on a card where the day directory does not exist and `mkdir`
fails while `open` succeeds, `startFilesOnSdNoSync` still asks for the track file, gets an
open handle and writes the skeleton to it. -/
theorem mkdir_failure_still_opens :
    noMkdirCard.existsPath (dayDirectory tokyoFix) = false
    ∧ noMkdirCard.mkdirOk (dayDirectory tokyoFix) = false
    ∧ (startFilesOnSdNoSync noMkdirCard tokyoFix Logger.init).gpxFile.isOpen = true
    ∧ (startFilesOnSdNoSync noMkdirCard tokyoFix Logger.init).gpxFile.content
        = GPX_PREAMBLE ++ GPX_EPILOGUE
    ∧ (startFilesOnSdNoSync noMkdirCard tokyoFix Logger.init).sdCalls
        = [.sdExists (dayDirectory tokyoFix), .sdMkdir (dayDirectory tokyoFix),
            .sdExists (timestampedPath tokyoFix ".gpx".toList),
            .sdOpen (timestampedPath tokyoFix ".gpx".toList)] := by
  refine ⟨rfl, rfl, ?_, ?_, ?_⟩
  · rw [(startFilesOnSdNoSync_fields noMkdirCard tokyoFix Logger.init).1]; rfl
  · rw [(startFilesOnSdNoSync_fields noMkdirCard tokyoFix Logger.init).1]
    simp [File.print, File.created, noMkdirCard, freshCard]
  · rw [startFilesOnSdNoSync_sdCalls]; rfl

/-- C14, amended. When the day directory does not exist and `SD.mkdir` fails,
`startFilesOnSdNoSync` reports the failure on `Serial` and goes on: it asks the card to
open the track file all the same, and `gpxFile` is the handle `SD.open` returned after the
two prints of the skeleton. The session is unopened on return, with nothing written,
exactly when that handle is not open. -/
theorem mkdir_failure_reported (SD : SDClass) (gnss : Gnss D) (s : Logger)
    (hex : SD.existsPath (dayDirectory gnss) = false)
    (hmk : SD.mkdirOk (dayDirectory gnss) = false) :
    (startFilesOnSdNoSync SD gnss s).sdCalls
        = s.sdCalls ++ [.sdExists (dayDirectory gnss), .sdMkdir (dayDirectory gnss),
            .sdExists (timestampedPath gnss ".gpx".toList),
            .sdOpen (timestampedPath gnss ".gpx".toList)]
    ∧ (∃ more, (startFilesOnSdNoSync SD gnss s).serial
        = s.serial ++ "error: Creating log directory for today failed.".toList
            ++ "\r\n".toList ++ more)
    ∧ (startFilesOnSdNoSync SD gnss s).gpxFile
        = (SD.openFile (timestampedPath gnss ".gpx".toList)).print
            (GPX_PREAMBLE ++ GPX_EPILOGUE)
    ∧ ((startFilesOnSdNoSync SD gnss s).gpxFile.isOpen
        = (SD.openFile (timestampedPath gnss ".gpx".toList)).isOpen)
    ∧ ((SD.openFile (timestampedPath gnss ".gpx".toList)).isOpen = false →
        (startFilesOnSdNoSync SD gnss s).gpxFile
          = SD.openFile (timestampedPath gnss ".gpx".toList)) := by
  have hfile := (startFilesOnSdNoSync_fields SD gnss s).1
  refine ⟨?_, ?_, hfile, ?_, ?_⟩
  · rw [startFilesOnSdNoSync_sdCalls, hex]; simp
  · unfold startFilesOnSdNoSync
    simp only [Logger.gpxPrint_gpxPrint]
    have hb : ∀ (x : Logger) (c : SdCall), (x.call c).buf = x.buf := fun _ _ => rfl
    simp only [hb, Logger.setBuf_buf, hex, hmk, Bool.not_false, if_true]
    simp only [Logger.gpxPrint, Logger.setGpxFile]
    obtain ⟨more, hmore⟩ := openTimestampedFile_serial SD gnss ".gpx".toList
      (Logger.serialPrintln
        (Logger.call (Logger.call (s.setBuf (dayDirectory gnss))
          (.sdExists (dayDirectory gnss))) (.sdMkdir (dayDirectory gnss)))
        "error: Creating log directory for today failed.".toList)
    exact ⟨more, hmore⟩
  · rw [hfile]; unfold File.print; split <;> simp_all
  · intro h; rw [hfile, File.print_closed _ _ h]

theorem mkdir_failure_reported_witness :
    noMkdirCard.existsPath (dayDirectory tokyoFix) = false
    ∧ noMkdirCard.mkdirOk (dayDirectory tokyoFix) = false
    ∧ (startFilesOnSdNoSync noMkdirCard tokyoFix Logger.init).gpxFile
        = (noMkdirCard.openFile (timestampedPath tokyoFix ".gpx".toList)).print
            (GPX_PREAMBLE ++ GPX_EPILOGUE) :=
  ⟨rfl, rfl, (mkdir_failure_reported noMkdirCard tokyoFix Logger.init rfl rfl).2.2.1⟩

/-- C20. The throttle compares in unsigned 32-bit arithmetic. With storage available, a
valid fix and an open session, when the clock value read is smaller than `prevTime` by
`d`, `0 < d ≤ 2^32 - SAMPLE_INTERVAL`, the difference `curTime - prevTime` is `2^32 - d`,
which is at least `SAMPLE_INTERVAL`: the call appends the fix and sets `prevTime` to the
smaller clock value. -/
theorem backward_clock_accepted (SAMPLE_INTERVAL : Nat)
    (dtostrf : D → Nat → Nat → List Char) (SD : SDClass) (gnss : Gnss D) (now d : Nat)
    (s : Logger) (hav : s.sd_avail ≠ 0) (hfix : gnss.isValidGNSSFix = true)
    (hopen : s.gpxFile.isOpen = true) (hd0 : 0 < d) (hd : d ≤ 2 ^ 32 - SAMPLE_INTERVAL)
    (hback : now % 2 ^ 32 + d = s.prevTime % 2 ^ 32) :
    (now % 2 ^ 32 + (2 ^ 32 - s.prevTime % 2 ^ 32)) % 2 ^ 32 = 2 ^ 32 - d
    ∧ SAMPLE_INTERVAL ≤ 2 ^ 32 - d
    ∧ Logger_loop SAMPLE_INTERVAL dtostrf .LOGGER_SD SD gnss now s
        = writeGpxSampleToSd dtostrf gnss (s.setPrevTime (now % 2 ^ 32))
    ∧ (Logger_loop SAMPLE_INTERVAL dtostrf .LOGGER_SD SD gnss now s).prevTime = now % 2 ^ 32
    ∧ ∀ base, s.gpxFile.content = base ++ GPX_EPILOGUE →
        (Logger_loop SAMPLE_INTERVAL dtostrf .LOGGER_SD SD gnss now s).gpxFile.content
          = base ++ trkpt dtostrf gnss ++ GPX_EPILOGUE := by
  have hdiff : (now % 2 ^ 32 + (2 ^ 32 - s.prevTime % 2 ^ 32)) % 2 ^ 32 = 2 ^ 32 - d := by
    omega
  have hT : SAMPLE_INTERVAL ≤ 2 ^ 32 - d := by omega
  have hloop : Logger_loop SAMPLE_INTERVAL dtostrf .LOGGER_SD SD gnss now s
      = writeGpxSampleToSd dtostrf gnss (s.setPrevTime (now % 2 ^ 32)) := by
    rw [Logger_loop_session _ _ _ _ _ _ hav hfix hopen, hdiff, if_pos hT]
  refine ⟨hdiff, hT, hloop, ?_, ?_⟩
  · rw [hloop, (writeGpxSampleToSd_fields dtostrf gnss _).1]; rfl
  · intro base hc
    rw [hloop, writeGpxSampleToSd_eq]
    exact congrArg File.content (File.seek_print_epilogue s.gpxFile base _ hopen hc)

theorem backward_clock_accepted_witness :
    (openSession.setPrevTime 5000).sd_avail ≠ 0 ∧ tokyoFix.isValidGNSSFix = true
    ∧ (openSession.setPrevTime 5000).gpxFile.isOpen = true ∧ 0 < 4000
    ∧ 4000 ≤ 2 ^ 32 - 10 ∧ 1000 % 2 ^ 32 + 4000 = (openSession.setPrevTime 5000).prevTime % 2 ^ 32
    ∧ (Logger_loop 10 padReading .LOGGER_SD freshCard tokyoFix 1000
          (openSession.setPrevTime 5000)).prevTime = 1000 % 2 ^ 32 :=
  ⟨by decide, rfl, by decide, by decide, by decide, by decide,
    (backward_clock_accepted 10 padReading freshCard tokyoFix 1000 4000
      (openSession.setPrevTime 5000) (by decide) rfl (by decide) (by decide) (by decide)
      (by decide)).2.2.2.1⟩

/-- C9, as stated, fails: with storage available, a valid fix, no open session and 100
clock units elapsed since the last accepted sample (interval 1), the call creates the
session and returns; the file holds the skeleton and no point element, and `prevTime` is
what it was. -/
theorem tick_without_session_only_opens :
    (Logger.init.setSdAvail 1).sd_avail ≠ 0 ∧ tokyoFix.isValidGNSSFix = true
    ∧ (Logger.init.setSdAvail 1).gpxFile.isOpen = false
    ∧ 1 ≤ (100 % 2 ^ 32 + (2 ^ 32 - (Logger.init.setSdAvail 1).prevTime % 2 ^ 32)) % 2 ^ 32
    ∧ (Logger_loop 1 padReading .LOGGER_SD freshCard tokyoFix 100
          (Logger.init.setSdAvail 1)).gpxFile.content = GPX_PREAMBLE ++ GPX_EPILOGUE
    ∧ (Logger_loop 1 padReading .LOGGER_SD freshCard tokyoFix 100
          (Logger.init.setSdAvail 1)).gpxFile.content
        ≠ GPX_PREAMBLE ++ trkpt padReading tokyoFix ++ GPX_EPILOGUE
    ∧ (Logger_loop 1 padReading .LOGGER_SD freshCard tokyoFix 100
          (Logger.init.setSdAvail 1)).prevTime = 0 := by
  have hloop := Logger_loop_no_session 1 padReading freshCard tokyoFix 100
    (Logger.init.setSdAvail 1) (by decide) rfl rfl
  have hc : (Logger_loop 1 padReading .LOGGER_SD freshCard tokyoFix 100
      (Logger.init.setSdAvail 1)).gpxFile.content = GPX_PREAMBLE ++ GPX_EPILOGUE := by
    rw [hloop, (startFilesOnSdNoSync_fields freshCard tokyoFix _).1]
    simp [File.print, File.created, freshCard]
  refine ⟨by decide, rfl, rfl, by decide, hc, ?_, ?_⟩
  · rw [hc]
    intro h
    have hl := congrArg List.length h
    simp only [trkpt, List.length_append, String.toList, List.length_cons] at hl
    omega
  · rw [hloop, (startFilesOnSdNoSync_fields freshCard tokyoFix _).2.2]; rfl

/-- C9, amended. A `Logger_loop` call in track-logging mode with storage available, a valid
fix and no open session runs session creation and nothing else, whatever time has elapsed:
when the card opens a new file, the file holds on return the skeleton with no point
element, and `prevTime` is unchanged. The throttle and the append are on the other branch,
taken by a later call. -/
theorem tick_without_session (SAMPLE_INTERVAL : Nat) (dtostrf : D → Nat → Nat → List Char)
    (SD : SDClass) (gnss : Gnss D) (now : Nat) (s : Logger) (hav : s.sd_avail ≠ 0)
    (hfix : gnss.isValidGNSSFix = true) (hclosed : s.gpxFile.isOpen = false)
    (hnew : SD.openFile (timestampedPath gnss ".gpx".toList) = File.created) :
    Logger_loop SAMPLE_INTERVAL dtostrf .LOGGER_SD SD gnss now s
        = startFilesOnSdNoSync SD gnss s
    ∧ (Logger_loop SAMPLE_INTERVAL dtostrf .LOGGER_SD SD gnss now s).gpxFile.isOpen = true
    ∧ (Logger_loop SAMPLE_INTERVAL dtostrf .LOGGER_SD SD gnss now s).gpxFile.content
        = GPX_PREAMBLE ++ GPX_EPILOGUE
    ∧ (Logger_loop SAMPLE_INTERVAL dtostrf .LOGGER_SD SD gnss now s).prevTime = s.prevTime := by
  have hloop := Logger_loop_no_session SAMPLE_INTERVAL dtostrf SD gnss now s hav hfix hclosed
  have hf := (startFilesOnSdNoSync_fields SD gnss s).1
  rw [hnew] at hf
  refine ⟨hloop, ?_, ?_, ?_⟩
  · rw [hloop, hf]; rfl
  · rw [hloop, hf]; simp [File.print, File.created]
  · rw [hloop, (startFilesOnSdNoSync_fields SD gnss s).2.2]

theorem tick_without_session_witness :
    (Logger.init.setSdAvail 1).sd_avail ≠ 0 ∧ tokyoFix.isValidGNSSFix = true
    ∧ (Logger.init.setSdAvail 1).gpxFile.isOpen = false
    ∧ freshCard.openFile (timestampedPath tokyoFix ".gpx".toList) = File.created
    ∧ (Logger_loop 1 padReading .LOGGER_SD freshCard tokyoFix 100
          (Logger.init.setSdAvail 1)).gpxFile.content = GPX_PREAMBLE ++ GPX_EPILOGUE :=
  ⟨by decide, rfl, rfl, rfl,
    (tick_without_session 1 padReading freshCard tokyoFix 100 (Logger.init.setSdAvail 1)
      (by decide) rfl rfl rfl).2.2.1⟩

/-! ## The throttle -/

/-- `Logger_setup` never assigns `prevTime`. -/
theorem Logger_setup_prevTime (mode : LoggerMode) (SD : SDClass) (gnss : Gnss D)
    (s : Logger) : (Logger_setup mode SD gnss s).prevTime = s.prevTime := by
  unfold Logger_setup
  cases mode with
  | LOGGER_OFF => rfl
  | other v => rfl
  | LOGGER_SD =>
    simp only
    split
    · rfl
    · split
      · rw [(startFilesOnSdNoSync_fields SD gnss _).2.2]; rfl
      · rfl

/-- `Logger_setup` with a card that starts and a valid fix creates the session. -/
theorem Logger_setup_opens (SD : SDClass) (gnss : Gnss D) (s : Logger)
    (hbegin : SD.beginOk = true) (hfix : gnss.isValidGNSSFix = true) :
    Logger_setup .LOGGER_SD SD gnss s
      = startFilesOnSdNoSync SD gnss ((s.call .sdBegin).setSdAvail 1) := by
  unfold Logger_setup
  simp [hbegin, hfix, Logger.setSdAvail]

/-- The throttle on clock values that did not wrap: the unsigned difference is the
difference. -/
theorem throttle_step (SAMPLE_INTERVAL : Nat) (dtostrf : D → Nat → Nat → List Char)
    (SD : SDClass) (gnss : Gnss D) (now : Nat) (s : Logger) (hav : s.sd_avail ≠ 0)
    (hfix : gnss.isValidGNSSFix = true) (hopen : s.gpxFile.isOpen = true)
    (hle : s.prevTime ≤ now) (hnow : now < 2 ^ 32) :
    (s.prevTime + SAMPLE_INTERVAL ≤ now →
      Logger_loop SAMPLE_INTERVAL dtostrf .LOGGER_SD SD gnss now s
        = writeGpxSampleToSd dtostrf gnss (s.setPrevTime now))
    ∧ (now < s.prevTime + SAMPLE_INTERVAL →
      Logger_loop SAMPLE_INTERVAL dtostrf .LOGGER_SD SD gnss now s = s) := by
  have hdiff : (now % 2 ^ 32 + (2 ^ 32 - s.prevTime % 2 ^ 32)) % 2 ^ 32 = now - s.prevTime := by
    omega
  have hmod : now % 2 ^ 32 = now := Nat.mod_eq_of_lt hnow
  rw [Logger_loop_session _ _ _ _ _ _ hav hfix hopen, hdiff, hmod]
  constructor
  · intro h; rw [if_pos (by omega)]
  · intro h; rw [if_neg (by omega)]

/-- The accepted ticks are successively at least `T` apart, from `last` on. -/
theorem acceptedTicks_chain (T : Nat) (ticks : List (SDClass × Gnss D × Nat)) :
    ∀ last : Nat, List.Chain (fun a b => a + T ≤ b) last
      ((acceptedTicks T last ticks).map (fun tk => tk.2.2)) := by
  induction ticks with
  | nil => intro last; exact List.Chain.nil
  | cons tk rest ih =>
    intro last
    unfold acceptedTicks
    split
    · rename_i h
      rw [List.map_cons]
      exact List.Chain.cons h (ih tk.2.2)
    · exact ih last

/-- A run of ticks with storage available, a session open, valid fixes and clock values
that do not decrease: the file holds the points of the accepted ticks, and `prevTime` is the
clock value of the last accepted one. -/
theorem Logger_loops_spec (T : Nat) (dtostrf : D → Nat → Nat → List Char)
    (ticks : List (SDClass × Gnss D × Nat)) :
    ∀ (s : Logger) (base : List Char), s.sd_avail ≠ 0 → s.gpxFile.isOpen = true →
      s.gpxFile.content = base ++ GPX_EPILOGUE →
      (∀ tk ∈ ticks, tk.2.1.isValidGNSSFix = true) → (∀ tk ∈ ticks, tk.2.2 < 2 ^ 32) →
      List.Pairwise (fun a b => a ≤ b) (s.prevTime :: ticks.map (fun tk => tk.2.2)) →
      (Logger_loops T dtostrf .LOGGER_SD ticks s).sd_avail ≠ 0
      ∧ (Logger_loops T dtostrf .LOGGER_SD ticks s).gpxFile.isOpen = true
      ∧ (Logger_loops T dtostrf .LOGGER_SD ticks s).gpxFile.content
          = base ++ ((acceptedTicks T s.prevTime ticks).map
              (fun tk => trkpt dtostrf tk.2.1)).flatten ++ GPX_EPILOGUE
      ∧ (Logger_loops T dtostrf .LOGGER_SD ticks s).prevTime
          = ((acceptedTicks T s.prevTime ticks).map (fun tk => tk.2.2)).getLastD s.prevTime
      ∧ ((Logger_loops T dtostrf .LOGGER_SD ticks s).prevTime = s.prevTime
          ∨ (Logger_loops T dtostrf .LOGGER_SD ticks s).prevTime
              ∈ ticks.map (fun tk => tk.2.2)) := by
  induction ticks with
  | nil =>
    intro s base hav hopen hc _ _ _
    exact ⟨hav, hopen, by simpa [Logger_loops, acceptedTicks] using hc, rfl, Or.inl rfl⟩
  | cons tk rest ih =>
    intro s base hav hopen hc hvalid hbound hmono
    have hfix := hvalid tk (List.mem_cons_self _ _)
    have hnow := hbound tk (List.mem_cons_self _ _)
    rw [List.map_cons, List.pairwise_cons, List.pairwise_cons] at hmono
    obtain ⟨hprev, htk, hrest⟩ := hmono
    have hle : s.prevTime ≤ tk.2.2 := hprev _ (List.mem_cons_self _ _)
    have hstep := throttle_step T dtostrf tk.1 tk.2.1 tk.2.2 s hav hfix hopen hle hnow
    have hrun : Logger_loops T dtostrf .LOGGER_SD (tk :: rest) s
        = Logger_loops T dtostrf .LOGGER_SD rest
            (Logger_loop T dtostrf .LOGGER_SD tk.1 tk.2.1 tk.2.2 s) := rfl
    rw [hrun]
    by_cases hacc : s.prevTime + T ≤ tk.2.2
    · rw [hstep.1 hacc]
      have hw := writeGpxSampleToSd_eq dtostrf tk.2.1 (s.setPrevTime tk.2.2)
      have hfile : (writeGpxSampleToSd dtostrf tk.2.1 (s.setPrevTime tk.2.2)).gpxFile
          = { isOpen := true
              content := base ++ trkpt dtostrf tk.2.1 ++ GPX_EPILOGUE
              cursor := (base ++ trkpt dtostrf tk.2.1 ++ GPX_EPILOGUE).length } := by
        rw [hw]
        exact File.seek_print_epilogue s.gpxFile base _ hopen hc
      have hpt : (writeGpxSampleToSd dtostrf tk.2.1 (s.setPrevTime tk.2.2)).prevTime
          = tk.2.2 := by rw [hw]; rfl
      have hsa : (writeGpxSampleToSd dtostrf tk.2.1 (s.setPrevTime tk.2.2)).sd_avail
          = s.sd_avail := by rw [hw]; rfl
      have h := ih (writeGpxSampleToSd dtostrf tk.2.1 (s.setPrevTime tk.2.2))
        (base ++ trkpt dtostrf tk.2.1) (by rw [hsa]; exact hav) (by rw [hfile])
        (by rw [hfile]) (fun x hx => hvalid x (List.mem_cons_of_mem _ hx))
        (fun x hx => hbound x (List.mem_cons_of_mem _ hx))
        (by rw [hpt]; exact List.pairwise_cons.mpr ⟨htk, hrest⟩)
      rw [hpt] at h
      obtain ⟨h1, h2, h3, h4, h5⟩ := h
      refine ⟨h1, h2, ?_, ?_, ?_⟩
      · rw [h3]
        simp only [acceptedTicks, if_pos hacc, List.map_cons, List.flatten_cons,
          List.append_assoc]
      · rw [h4]
        simp only [acceptedTicks, if_pos hacc, List.map_cons, List.getLastD_cons]
      · right
        rcases h5 with h5 | h5
        · rw [h5]; exact List.mem_cons_self _ _
        · exact List.mem_cons_of_mem _ h5
    · rw [hstep.2 (by omega)]
      have h := ih s base hav hopen hc (fun x hx => hvalid x (List.mem_cons_of_mem _ hx))
        (fun x hx => hbound x (List.mem_cons_of_mem _ hx))
        (List.pairwise_cons.mpr ⟨fun b hb => hprev b (List.mem_cons_of_mem _ hb), hrest⟩)
      obtain ⟨h1, h2, h3, h4, h5⟩ := h
      refine ⟨h1, h2, ?_, ?_, ?_⟩
      · rw [h3]; simp only [acceptedTicks, if_neg hacc]
      · rw [h4]; simp only [acceptedTicks, if_neg hacc]
      · rcases h5 with h5 | h5
        · exact Or.inl h5
        · exact Or.inr (List.mem_cons_of_mem _ h5)

/-- C7. For every interval `T = SAMPLE_INTERVAL`, in a run of `Logger_loop` calls with
storage available, a session open on a file that ends with the closing fragment, valid
fixes and clock values that do not decrease (from `prevTime` on): a call appends the point
of its fix and sets `prevTime` to its clock value when the clock is at least `T` past
`prevTime`, and returns the state unchanged (file and `prevTime` included) when it is not;
at the end the file holds the points of the accepted ticks in order, `prevTime` is the
clock value of the last accepted tick, and successive accepted ticks are at least `T`
apart. -/
theorem throttle_correct (T : Nat) (dtostrf : D → Nat → Nat → List Char)
    (ticks : List (SDClass × Gnss D × Nat)) (s : Logger) (base : List Char)
    (hav : s.sd_avail ≠ 0) (hopen : s.gpxFile.isOpen = true)
    (hc : s.gpxFile.content = base ++ GPX_EPILOGUE)
    (hvalid : ∀ tk ∈ ticks, tk.2.1.isValidGNSSFix = true)
    (hbound : ∀ tk ∈ ticks, tk.2.2 < 2 ^ 32)
    (hmono : List.Pairwise (fun a b => a ≤ b) (s.prevTime :: ticks.map (fun tk => tk.2.2))) :
    (∀ pre tk post, ticks = pre ++ tk :: post →
      (Logger_loops T dtostrf .LOGGER_SD pre s).prevTime ≤ tk.2.2
      ∧ ((Logger_loops T dtostrf .LOGGER_SD pre s).prevTime + T ≤ tk.2.2 →
          (∃ body, (Logger_loops T dtostrf .LOGGER_SD pre s).gpxFile.content
                = body ++ GPX_EPILOGUE
            ∧ (Logger_loop T dtostrf .LOGGER_SD tk.1 tk.2.1 tk.2.2
                (Logger_loops T dtostrf .LOGGER_SD pre s)).gpxFile.content
                = body ++ trkpt dtostrf tk.2.1 ++ GPX_EPILOGUE)
          ∧ (Logger_loop T dtostrf .LOGGER_SD tk.1 tk.2.1 tk.2.2
              (Logger_loops T dtostrf .LOGGER_SD pre s)).prevTime = tk.2.2)
      ∧ (tk.2.2 < (Logger_loops T dtostrf .LOGGER_SD pre s).prevTime + T →
          Logger_loop T dtostrf .LOGGER_SD tk.1 tk.2.1 tk.2.2
              (Logger_loops T dtostrf .LOGGER_SD pre s)
            = Logger_loops T dtostrf .LOGGER_SD pre s))
    ∧ (Logger_loops T dtostrf .LOGGER_SD ticks s).gpxFile.content
        = base ++ ((acceptedTicks T s.prevTime ticks).map
            (fun tk => trkpt dtostrf tk.2.1)).flatten ++ GPX_EPILOGUE
    ∧ (Logger_loops T dtostrf .LOGGER_SD ticks s).prevTime
        = ((acceptedTicks T s.prevTime ticks).map (fun tk => tk.2.2)).getLastD s.prevTime
    ∧ List.Chain (fun a b => a + T ≤ b) s.prevTime
        ((acceptedTicks T s.prevTime ticks).map (fun tk => tk.2.2)) := by
  have hall := Logger_loops_spec T dtostrf ticks s base hav hopen hc hvalid hbound hmono
  refine ⟨?_, hall.2.2.1, hall.2.2.2.1, acceptedTicks_chain T ticks s.prevTime⟩
  intro pre tk post hsplit
  subst hsplit
  rw [List.map_append, List.map_cons, List.pairwise_cons, List.pairwise_append] at hmono
  obtain ⟨hprev, hpre, _, hcross⟩ := hmono
  have hspec := Logger_loops_spec T dtostrf pre s base hav hopen hc
    (fun x hx => hvalid x (List.mem_append_left _ hx))
    (fun x hx => hbound x (List.mem_append_left _ hx))
    (List.pairwise_cons.mpr ⟨fun b hb => hprev b (List.mem_append_left _ hb), hpre⟩)
  obtain ⟨hav1, hopen1, hc1, _, hp1⟩ := hspec
  have htkmem : tk ∈ pre ++ tk :: post :=
    List.mem_append_right _ (List.mem_cons_self _ _)
  have hle : (Logger_loops T dtostrf .LOGGER_SD pre s).prevTime ≤ tk.2.2 := by
    rcases hp1 with h | h
    · rw [h]; exact hprev _ (List.mem_append_right _ (List.mem_cons_self _ _))
    · exact hcross _ h _ (List.mem_cons_self _ _)
  have hstep := throttle_step T dtostrf tk.1 tk.2.1 tk.2.2
    (Logger_loops T dtostrf .LOGGER_SD pre s) hav1 (hvalid tk htkmem) hopen1 hle
    (hbound tk htkmem)
  refine ⟨hle, ?_, hstep.2⟩
  intro hacc
  rw [hstep.1 hacc, writeGpxSampleToSd_eq]
  refine ⟨⟨_, hc1, ?_⟩, rfl⟩
  exact congrArg File.content (File.seek_print_epilogue _ _ _ hopen1 hc1)

theorem throttle_correct_witness :
    openSession.sd_avail ≠ 0 ∧ openSession.gpxFile.isOpen = true
    ∧ openSession.gpxFile.content = GPX_PREAMBLE ++ GPX_EPILOGUE
    ∧ (Logger_loops 10 padReading .LOGGER_SD
          [(freshCard, tokyoFix, 10), (freshCard, tokyoFix, 15), (freshCard, tokyoFix, 20)]
          openSession).prevTime
        = ((acceptedTicks 10 openSession.prevTime
            [(freshCard, tokyoFix, 10), (freshCard, tokyoFix, 15),
              (freshCard, tokyoFix, 20)]).map (fun tk => tk.2.2)).getLastD
            openSession.prevTime :=
  ⟨by decide, by decide, by decide,
    (throttle_correct 10 padReading
      [(freshCard, tokyoFix, 10), (freshCard, tokyoFix, 15), (freshCard, tokyoFix, 20)]
      openSession GPX_PREAMBLE (by decide) (by decide) (by decide)
      (by simp [tokyoFix]) (by simp) (by simp [openSession, Logger.init, Logger.setSdAvail,
        Logger.setGpxFile])).2.2.1⟩
/-- C8, as stated, fails: right after `Logger_setup` has opened a session (`prevTime` is
still 0) a call with a valid fix at clock value 0 and interval 1 appends nothing; and
right after a `Logger_loop` call has opened a session with `prevTime` at 5000, a call at
clock value 5000 appends nothing either. Both calls return the state unchanged. -/
theorem first_fix_can_be_throttled :
    (Logger_setup .LOGGER_SD freshCard tokyoFix Logger.init).sd_avail ≠ 0
    ∧ (Logger_setup .LOGGER_SD freshCard tokyoFix Logger.init).gpxFile.isOpen = true
    ∧ (Logger_setup .LOGGER_SD freshCard tokyoFix Logger.init).gpxFile.content
        = GPX_PREAMBLE ++ GPX_EPILOGUE
    ∧ Logger_loop 1 padReading .LOGGER_SD freshCard tokyoFix 0
          (Logger_setup .LOGGER_SD freshCard tokyoFix Logger.init)
        = Logger_setup .LOGGER_SD freshCard tokyoFix Logger.init
    ∧ (Logger_loop 1 padReading .LOGGER_SD freshCard tokyoFix 5000
          ((Logger.init.setSdAvail 1).setPrevTime 5000)).gpxFile.content
        = GPX_PREAMBLE ++ GPX_EPILOGUE
    ∧ Logger_loop 1 padReading .LOGGER_SD freshCard tokyoFix 5000
          (Logger_loop 1 padReading .LOGGER_SD freshCard tokyoFix 5000
            ((Logger.init.setSdAvail 1).setPrevTime 5000))
        = Logger_loop 1 padReading .LOGGER_SD freshCard tokyoFix 5000
            ((Logger.init.setSdAvail 1).setPrevTime 5000) := by
  have hsetup := Logger_setup_opens freshCard tokyoFix Logger.init rfl rfl
  have hf1 := startFilesOnSdNoSync_fields freshCard tokyoFix
    ((Logger.init.call .sdBegin).setSdAvail 1)
  have hloop := Logger_loop_no_session 1 padReading freshCard tokyoFix 5000
    ((Logger.init.setSdAvail 1).setPrevTime 5000) (by decide) rfl rfl
  have hf2 := startFilesOnSdNoSync_fields freshCard tokyoFix
    ((Logger.init.setSdAvail 1).setPrevTime 5000)
  have hskel : (freshCard.openFile (timestampedPath tokyoFix ".gpx".toList)).print
      (GPX_PREAMBLE ++ GPX_EPILOGUE)
      = { isOpen := true, content := GPX_PREAMBLE ++ GPX_EPILOGUE,
          cursor := (GPX_PREAMBLE ++ GPX_EPILOGUE).length } := by
    simp [File.print, File.created, freshCard]
  rw [hskel] at hf1 hf2
  rw [hsetup, hloop]
  refine ⟨?_, ?_, ?_, ?_, ?_, ?_⟩
  · rw [hf1.2.1]; decide
  · rw [hf1.1]
  · rw [hf1.1]
  · refine (throttle_step 1 padReading freshCard tokyoFix 0 _ ?_ rfl ?_ ?_ (by decide)).2 ?_
    · rw [hf1.2.1]; decide
    · rw [hf1.1]
    · rw [hf1.2.2]; decide
    · rw [hf1.2.2]; decide
  · rw [hf2.1]
  · refine (throttle_step 1 padReading freshCard tokyoFix 5000 _ ?_ rfl ?_ ?_ (by decide)).2 ?_
    · rw [hf2.2.1]; decide
    · rw [hf2.1]
    · rw [hf2.2.2]; decide
    · rw [hf2.2.2]; decide

/-- C8, amended. Opening a session does not touch `prevTime` (neither `Logger_setup` nor
`startFilesOnSdNoSync` assigns it), and the first `Logger_loop` call after it, with storage
available and a valid fix, goes through the same throttle as any other: it appends one
point and sets `prevTime` when the unsigned difference `curTime - prevTime` is at least
`SAMPLE_INTERVAL`, and returns the state unchanged when it is smaller. -/
theorem first_fix_throttle (SAMPLE_INTERVAL : Nat) (dtostrf : D → Nat → Nat → List Char)
    (SD : SDClass) (gnss : Gnss D) (now : Nat) (s : Logger) (hav : s.sd_avail ≠ 0)
    (hfix : gnss.isValidGNSSFix = true) (hopen : s.gpxFile.isOpen = true)
    (hc : s.gpxFile.content = GPX_PREAMBLE ++ GPX_EPILOGUE) :
    (∀ (mode : LoggerMode) (SD0 : SDClass) (gnss0 : Gnss D) (s0 : Logger),
        (Logger_setup mode SD0 gnss0 s0).prevTime = s0.prevTime
        ∧ (startFilesOnSdNoSync SD0 gnss0 s0).prevTime = s0.prevTime)
    ∧ (SAMPLE_INTERVAL ≤ (now % 2 ^ 32 + (2 ^ 32 - s.prevTime % 2 ^ 32)) % 2 ^ 32 →
        (Logger_loop SAMPLE_INTERVAL dtostrf .LOGGER_SD SD gnss now s).gpxFile.content
          = GPX_PREAMBLE ++ trkpt dtostrf gnss ++ GPX_EPILOGUE
        ∧ (Logger_loop SAMPLE_INTERVAL dtostrf .LOGGER_SD SD gnss now s).prevTime
          = now % 2 ^ 32)
    ∧ ((now % 2 ^ 32 + (2 ^ 32 - s.prevTime % 2 ^ 32)) % 2 ^ 32 < SAMPLE_INTERVAL →
        Logger_loop SAMPLE_INTERVAL dtostrf .LOGGER_SD SD gnss now s = s) := by
  have hloop := Logger_loop_session SAMPLE_INTERVAL dtostrf SD gnss now s hav hfix hopen
  refine ⟨fun mode SD0 gnss0 s0 => ⟨Logger_setup_prevTime mode SD0 gnss0 s0,
    (startFilesOnSdNoSync_fields SD0 gnss0 s0).2.2⟩, ?_, ?_⟩
  · intro h
    rw [hloop, if_pos h, writeGpxSampleToSd_eq]
    exact ⟨congrArg File.content (File.seek_print_epilogue s.gpxFile _ _ hopen hc), rfl⟩
  · intro h
    rw [hloop, if_neg (by omega)]

theorem first_fix_throttle_witness :
    openSession.sd_avail ≠ 0 ∧ tokyoFix.isValidGNSSFix = true
    ∧ openSession.gpxFile.isOpen = true
    ∧ openSession.gpxFile.content = GPX_PREAMBLE ++ GPX_EPILOGUE
    ∧ (0 % 2 ^ 32 + (2 ^ 32 - openSession.prevTime % 2 ^ 32)) % 2 ^ 32 < 1
    ∧ Logger_loop 1 padReading .LOGGER_SD freshCard tokyoFix 0 openSession = openSession :=
  ⟨by decide, rfl, by decide, by decide, by decide,
    (first_fix_throttle 1 padReading freshCard tokyoFix 0 openSession (by decide) rfl
      (by decide) (by decide)).2.2 (by decide)⟩

/-! ## Counting substrings -/

theorem isPrefixOf_append_settled (pat t b : List Char)
    (h : (pat.isPrefixOf t || !(t.isPrefixOf pat)) = true) :
    pat.isPrefixOf (t ++ b) = pat.isPrefixOf t := by
  rw [Bool.or_eq_true, Bool.not_eq_true', ← Bool.not_eq_true, List.isPrefixOf_iff_prefix,
    List.isPrefixOf_iff_prefix] at h
  rw [Bool.eq_iff_iff, List.isPrefixOf_iff_prefix, List.isPrefixOf_iff_prefix]
  constructor
  · intro hp
    rcases h with h | h
    · exact h
    · rcases List.prefix_or_prefix_of_prefix hp (List.prefix_append t b) with h1 | h1
      · exact h1
      · exact absurd h1 h
  · intro hp
    exact hp.trans (List.prefix_append t b)

theorem settled_append (pat a b : List Char) (ha : settled pat a = true)
    (hb : settled pat b = true) : settled pat (a ++ b) = true := by
  induction a with
  | nil => simpa using hb
  | cons c cs ih =>
    rw [settled, Bool.and_eq_true] at ha
    rw [List.cons_append, settled, Bool.and_eq_true]
    refine ⟨?_, ih ha.2⟩
    have h1 := isPrefixOf_append_settled pat (c :: cs) b ha.1
    rw [List.cons_append] at h1
    rw [h1]
    have h0 := ha.1
    rw [Bool.or_eq_true] at h0 ⊢
    rcases h0 with h0 | h0
    · exact Or.inl h0
    · right
      rw [Bool.not_eq_true', ← Bool.not_eq_true, List.isPrefixOf_iff_prefix] at h0 ⊢
      intro hp
      have : (c :: cs) <+: c :: (cs ++ b) := by
        rw [← List.cons_append]; exact List.prefix_append _ _
      exact h0 (this.trans hp)

theorem countOccurrences_append (pat a b : List Char) (hpat : pat ≠ [])
    (ha : settled pat a = true) :
    countOccurrences pat (a ++ b) = countOccurrences pat a + countOccurrences pat b := by
  induction a with
  | nil =>
    have : pat.isEmpty = false := by cases pat <;> simp_all
    simp [countOccurrences, this]
  | cons c cs ih =>
    rw [settled, Bool.and_eq_true] at ha
    have h1 := isPrefixOf_append_settled pat (c :: cs) b ha.1
    rw [List.cons_append] at h1
    rw [List.cons_append, countOccurrences, countOccurrences, h1, ih ha.2]
    omega

theorem inert (p : Char) (ps n : List Char) (h : ∀ c ∈ n, c ≠ p) :
    settled (p :: ps) n = true ∧ countOccurrences (p :: ps) n = 0 := by
  induction n with
  | nil => simp [settled, countOccurrences]
  | cons c cs ih =>
    have hc : c ≠ p := h c (List.mem_cons_self _ _)
    have ih1 := ih (fun x hx => h x (List.mem_cons_of_mem _ hx))
    have e1 : (c :: cs).isPrefixOf (p :: ps) = false := by
      simp [List.isPrefixOf, hc]
    have e2 : (p :: ps).isPrefixOf (c :: cs) = false := by
      simp [List.isPrefixOf, Ne.symm hc]
    simp [settled, countOccurrences, e1, e2, ih1.1, ih1.2]

theorem absent_iff (pat text : List Char) :
    absent pat text = true ↔ settled pat text = true ∧ countOccurrences pat text = 0 := by
  simp [absent]

theorem absent_append (pat a b : List Char) (hpat : pat ≠ []) (ha : absent pat a = true)
    (hb : absent pat b = true) : absent pat (a ++ b) = true := by
  rw [absent_iff] at ha hb ⊢
  exact ⟨settled_append pat a b ha.1 hb.1,
    by rw [countOccurrences_append pat a b hpat ha.1, ha.2, hb.2]⟩

/-- A text of field characters holds no pattern that starts with another character. -/
theorem absent_field (pat : List Char) (p : Char) (n : List Char)
    (hhead : pat.head? = some p) (hp : fieldChar p = false)
    (hn : ∀ c ∈ n, fieldChar c = true) : absent pat n = true := by
  obtain ⟨ps, rfl⟩ : ∃ ps, pat = p :: ps := by
    cases pat with
    | nil => simp at hhead
    | cons q qs => simp at hhead; exact ⟨qs, by rw [hhead]⟩
  rw [absent_iff]
  apply inert
  intro c hc e
  have h := hn c hc
  rw [e, hp] at h
  exact absurd h (by decide)

/-- An optional child: its opening tag, a number, its closing tag; or nothing. -/
theorem absent_block (pat : List Char) (p : Char) (b : Bool) (o n c : List Char)
    (hhead : pat.head? = some p) (hp : fieldChar p = false) (ho : absent pat o = true)
    (hc : absent pat c = true) (hn : b = true → ∀ x ∈ n, fieldChar x = true) :
    absent pat (if b = true then o ++ (n ++ c) else []) = true := by
  have hpat : pat ≠ [] := by intro e; rw [e] at hhead; simp at hhead
  cases b with
  | false =>
    rw [if_neg (by decide), absent_iff]
    cases pat with
    | nil => exact absurd rfl hpat
    | cons q qs => simp [settled, countOccurrences]
  | true =>
    rw [if_pos rfl]
    exact absent_append _ _ _ hpat ho
      (absent_append _ _ _ hpat (absent_field pat p n hhead hp (hn rfl)) hc)

theorem decimal_fieldChar (n : Nat) : ∀ c ∈ decimal n, fieldChar c = true := by
  induction n using Nat.strong_induction_on with
  | _ n ih =>
    intro c hc
    rw [decimal_step] at hc
    split at hc
    · rename_i h
      rw [List.mem_singleton] at hc
      simp [fieldChar, hc, digitChar_isDigit n h]
    · rw [List.mem_append, List.mem_singleton] at hc
      rcases hc with hc | hc
      · exact ih (n / 10) (by omega) c hc
      · simp [fieldChar, hc, digitChar_isDigit (n % 10) (Nat.mod_lt _ (by decide))]

theorem fmt0d_fieldChar (w : Nat) (v : Int) : ∀ c ∈ fmt0d w v, fieldChar c = true := by
  have hz : ∀ (w n : Nat), ∀ c ∈ zeroPad w n, fieldChar c = true := by
    intro w n c hc
    unfold zeroPad at hc
    rw [List.mem_append] at hc
    rcases hc with hc | hc
    · rw [List.eq_of_mem_replicate hc]; decide
    · exact decimal_fieldChar n c hc
  intro c hc
  unfold fmt0d at hc
  split at hc
  · rw [List.mem_cons] at hc
    rcases hc with hc | hc
    · rw [hc]; decide
    · exact hz _ _ c hc
  · exact hz _ _ c hc

theorem sampleDatetime_fieldChar (gnss : Gnss D) :
    ∀ c ∈ sampleDatetime gnss, fieldChar c = true := by
  unfold sampleDatetime
  simp only [List.forall_mem_append]
  repeat' (first | exact fmt0d_fieldChar _ _ | decide | constructor)

theorem isNumeric_fieldChar (text : List Char) (h : isNumeric text = true) :
    ∀ c ∈ text, fieldChar c = true := by
  intro c hc
  unfold isNumeric at h
  rw [List.all_eq_true] at h
  have := h c hc
  simp only [Bool.or_eq_true] at this
  unfold fieldChar
  simp only [Bool.or_eq_true]
  tauto

theorem renderedNumeric_fields (dtostrf : D → Nat → Nat → List Char) (gnss : Gnss D)
    (h : renderedNumeric dtostrf gnss = true) :
    (∀ c ∈ trim (dtostrf gnss.location_lat 10 LATLON_PREC), fieldChar c = true)
    ∧ (∀ c ∈ trim (dtostrf gnss.location_lng 10 LATLON_PREC), fieldChar c = true)
    ∧ (gnss.altitude_isValid = true →
        ∀ c ∈ trim (dtostrf gnss.altitude_value 5 2), fieldChar c = true)
    ∧ (gnss.speed_isValid = true →
        ∀ c ∈ trim (dtostrf gnss.speed_value 5 1), fieldChar c = true)
    ∧ (gnss.course_isValid = true →
        ∀ c ∈ trim (dtostrf gnss.course_value 5 1), fieldChar c = true)
    ∧ (gnss.hdop_isValid = true →
        ∀ c ∈ trim (dtostrf gnss.hdop_hdop 5 2), fieldChar c = true) := by
  unfold renderedNumeric at h
  simp only [Bool.and_eq_true, Bool.or_eq_true, Bool.not_eq_true'] at h
  obtain ⟨⟨⟨⟨⟨h1, h2⟩, h3⟩, h4⟩, h5⟩, h6⟩ := h
  have opt : ∀ (b : Bool) (text : List Char), (b = false ∨ isNumeric text = true) →
      b = true → ∀ c ∈ text, fieldChar c = true := by
    intro b text hb hv
    rcases hb with hb | hb
    · rw [hv] at hb; exact absurd hb (by decide)
    · exact isNumeric_fieldChar text hb
  exact ⟨isNumeric_fieldChar _ h1, isNumeric_fieldChar _ h2, opt _ _ h3, opt _ _ h4,
    opt _ _ h5, opt _ _ h6⟩

theorem occurrences_append_absent (pat a b : List Char) (n : Nat) (hpat : pat ≠ [])
    (ha : settled pat a = true ∧ countOccurrences pat a = n) (hb : absent pat b = true) :
    settled pat (a ++ b) = true ∧ countOccurrences pat (a ++ b) = n := by
  rw [absent_iff] at hb
  exact ⟨settled_append pat a b ha.1 hb.1,
    by rw [countOccurrences_append pat a b hpat ha.1, ha.2, hb.2]; rfl⟩

/-- The closing fragment occurs nowhere in a point element. -/
theorem trkpt_epilogue_absent (dtostrf : D → Nat → Nat → List Char) (gnss : Gnss D)
    (h : renderedNumeric dtostrf gnss = true) :
    absent GPX_EPILOGUE (trkpt dtostrf gnss) = true := by
  obtain ⟨hlat, hlng, halt, hspd, hcrs, hhd⟩ := renderedNumeric_fields dtostrf gnss h
  have hts := sampleDatetime_fieldChar gnss
  have hsat : gnss.satellites_isValid = true →
      ∀ c ∈ decimal gnss.satellites_value, fieldChar c = true := fun _ => decimal_fieldChar _
  have hpat : GPX_EPILOGUE ≠ [] := by decide
  have hhead : (GPX_EPILOGUE).head? = some '\t' := rfl
  have hp : fieldChar '\t' = false := by decide
  unfold trkpt
  simp only [List.append_assoc]
  refine absent_append _ _ _ hpat (by decide) ?_
  refine absent_append _ _ _ hpat (by decide) ?_
  refine absent_append _ _ _ hpat (absent_field _ _ _ hhead hp hlat) ?_
  refine absent_append _ _ _ hpat (by decide) ?_
  refine absent_append _ _ _ hpat (absent_field _ _ _ hhead hp hlng) ?_
  refine absent_append _ _ _ hpat (by decide) ?_
  refine absent_append _ _ _ hpat (by decide) ?_
  refine absent_append _ _ _ hpat (absent_field _ _ _ hhead hp hts) ?_
  refine absent_append _ _ _ hpat (by decide) ?_
  refine absent_append _ _ _ hpat
    (absent_block _ _ _ _ _ _ hhead hp (by decide) (by decide) halt) ?_
  refine absent_append _ _ _ hpat
    (absent_block _ _ _ _ _ _ hhead hp (by decide) (by decide) hspd) ?_
  refine absent_append _ _ _ hpat
    (absent_block _ _ _ _ _ _ hhead hp (by decide) (by decide) hcrs) ?_
  refine absent_append _ _ _ hpat
    (absent_block _ _ _ _ _ _ hhead hp (by decide) (by decide) hsat) ?_
  refine absent_append _ _ _ hpat
    (absent_block _ _ _ _ _ _ hhead hp (by decide) (by decide) hhd) ?_
  decide

/-- The text `<trkpt ` occurs once in a point element, in its opening tag. -/
theorem trkpt_open_once (dtostrf : D → Nat → Nat → List Char) (gnss : Gnss D)
    (h : renderedNumeric dtostrf gnss = true) :
    settled "<trkpt ".toList (trkpt dtostrf gnss) = true
    ∧ countOccurrences "<trkpt ".toList (trkpt dtostrf gnss) = 1 := by
  obtain ⟨hlat, hlng, halt, hspd, hcrs, hhd⟩ := renderedNumeric_fields dtostrf gnss h
  have hts := sampleDatetime_fieldChar gnss
  have hsat : gnss.satellites_isValid = true →
      ∀ c ∈ decimal gnss.satellites_value, fieldChar c = true := fun _ => decimal_fieldChar _
  have hpat : "<trkpt ".toList ≠ [] := by decide
  have hhead : "<trkpt ".toList.head? = some '<' := rfl
  have hp : fieldChar '<' = false := by decide
  unfold trkpt
  simp only [List.append_assoc]
  refine occurrences_append_absent _ _ _ 1 hpat (by decide) ?_
  refine absent_append _ _ _ hpat (by decide) ?_
  refine absent_append _ _ _ hpat (absent_field _ _ _ hhead hp hlat) ?_
  refine absent_append _ _ _ hpat (by decide) ?_
  refine absent_append _ _ _ hpat (absent_field _ _ _ hhead hp hlng) ?_
  refine absent_append _ _ _ hpat (by decide) ?_
  refine absent_append _ _ _ hpat (by decide) ?_
  refine absent_append _ _ _ hpat (absent_field _ _ _ hhead hp hts) ?_
  refine absent_append _ _ _ hpat (by decide) ?_
  refine absent_append _ _ _ hpat
    (absent_block _ _ _ _ _ _ hhead hp (by decide) (by decide) halt) ?_
  refine absent_append _ _ _ hpat
    (absent_block _ _ _ _ _ _ hhead hp (by decide) (by decide) hspd) ?_
  refine absent_append _ _ _ hpat
    (absent_block _ _ _ _ _ _ hhead hp (by decide) (by decide) hcrs) ?_
  refine absent_append _ _ _ hpat
    (absent_block _ _ _ _ _ _ hhead hp (by decide) (by decide) hsat) ?_
  refine absent_append _ _ _ hpat
    (absent_block _ _ _ _ _ _ hhead hp (by decide) (by decide) hhd) ?_
  decide

theorem flatten_occurrences (pat : List Char) (hpat : pat ≠ []) (n : Nat)
    (xs : List (List Char))
    (h : ∀ x ∈ xs, settled pat x = true ∧ countOccurrences pat x = n) :
    settled pat xs.flatten = true ∧ countOccurrences pat xs.flatten = n * xs.length := by
  induction xs with
  | nil =>
    have : pat.isEmpty = false := by cases pat <;> simp_all
    simp [settled, countOccurrences, this]
  | cons x rest ih =>
    have hx := h x (List.mem_cons_self _ _)
    have hr := ih (fun y hy => h y (List.mem_cons_of_mem _ hy))
    rw [List.flatten_cons]
    refine ⟨settled_append pat _ _ hx.1 hr.1, ?_⟩
    rw [countOccurrences_append pat _ _ hpat hx.1, hx.2, hr.2, List.length_cons]
    ring

set_option maxRecDepth 100000 in
/-- C18. For every list of fixes whose rendered numbers consist only of digits, `.` and
`-`, the file obtained from a session created on a new file followed by one append per fix
contains the text `<trkpt ` exactly as many times as there are fixes and the closing
fragment exactly once; the closing fragment is the last 24 bytes of the file, and it
occurs nowhere in the file without its last byte: no earlier copy survives. -/
theorem points_counted_epilogue_once (dtostrf : D → Nat → Nat → List Char) (SD : SDClass)
    (gnss0 : Gnss D) (s : Logger) (fixes : List (Gnss D))
    (hnew : SD.openFile (timestampedPath gnss0 ".gpx".toList) = File.created)
    (hnum : ∀ g ∈ fixes, renderedNumeric dtostrf g = true) :
    countOccurrences "<trkpt ".toList
        (fixes.foldl (fun st g => writeGpxSampleToSd dtostrf g st)
          (startFilesOnSdNoSync SD gnss0 s)).gpxFile.content = fixes.length
    ∧ countOccurrences "\t</trkseg></trk>\n</gpx>\n".toList
        (fixes.foldl (fun st g => writeGpxSampleToSd dtostrf g st)
          (startFilesOnSdNoSync SD gnss0 s)).gpxFile.content = 1
    ∧ (fixes.foldl (fun st g => writeGpxSampleToSd dtostrf g st)
          (startFilesOnSdNoSync SD gnss0 s)).gpxFile.content.drop
        ((fixes.foldl (fun st g => writeGpxSampleToSd dtostrf g st)
          (startFilesOnSdNoSync SD gnss0 s)).gpxFile.content.length - 24)
        = "\t</trkseg></trk>\n</gpx>\n".toList
    ∧ countOccurrences "\t</trkseg></trk>\n</gpx>\n".toList
        (fixes.foldl (fun st g => writeGpxSampleToSd dtostrf g st)
          (startFilesOnSdNoSync SD gnss0 s)).gpxFile.content.dropLast = 0 := by
  have h0 := (startFilesOnSdNoSync_fields SD gnss0 s).1
  rw [hnew] at h0
  have hcontent : (fixes.foldl (fun st g => writeGpxSampleToSd dtostrf g st)
      (startFilesOnSdNoSync SD gnss0 s)).gpxFile.content
      = GPX_PREAMBLE ++ (fixes.map (trkpt dtostrf)).flatten ++ GPX_EPILOGUE := by
    apply appends_content
    · rw [h0]; simp [File.print, File.created]
    · rw [h0]; simp [File.print, File.created]
  rw [hcontent]
  have hP : "<trkpt ".toList ≠ [] := by decide
  have hE : GPX_EPILOGUE ≠ [] := by decide
  have hepi : "\t</trkseg></trk>\n</gpx>\n".toList = GPX_EPILOGUE := rfl
  rw [hepi]
  have hXP := flatten_occurrences "<trkpt ".toList hP 1 (fixes.map (trkpt dtostrf))
    (by
      intro x hx
      obtain ⟨g, hg, rfl⟩ := List.mem_map.mp hx
      exact trkpt_open_once dtostrf g (hnum g hg))
  have hXE := flatten_occurrences GPX_EPILOGUE hE 0 (fixes.map (trkpt dtostrf))
    (by
      intro x hx
      obtain ⟨g, hg, rfl⟩ := List.mem_map.mp hx
      exact (absent_iff _ _).mp (trkpt_epilogue_absent dtostrf g (hnum g hg)))
  have hpreP : settled "<trkpt ".toList GPX_PREAMBLE = true
      ∧ countOccurrences "<trkpt ".toList GPX_PREAMBLE = 0 := by decide
  have hpreE : settled GPX_EPILOGUE GPX_PREAMBLE = true
      ∧ countOccurrences GPX_EPILOGUE GPX_PREAMBLE = 0 := by decide
  have hepiP : countOccurrences "<trkpt ".toList GPX_EPILOGUE = 0 := by decide
  have hepiE : countOccurrences GPX_EPILOGUE GPX_EPILOGUE = 1 := by decide
  have hlastE : countOccurrences GPX_EPILOGUE GPX_EPILOGUE.dropLast = 0 := by decide
  refine ⟨?_, ?_, ?_, ?_⟩
  · rw [countOccurrences_append _ _ _ hP (settled_append _ _ _ hpreP.1 hXP.1),
      countOccurrences_append _ _ _ hP hpreP.1, hpreP.2, hXP.2, hepiP]
    simp
  · rw [countOccurrences_append _ _ _ hE (settled_append _ _ _ hpreE.1 hXE.1),
      countOccurrences_append _ _ _ hE hpreE.1, hpreE.2, hXE.2, hepiE]
    simp
  · have hlen : (GPX_PREAMBLE ++ (fixes.map (trkpt dtostrf)).flatten ++ GPX_EPILOGUE).length
        - 24 = (GPX_PREAMBLE ++ (fixes.map (trkpt dtostrf)).flatten).length := by
      rw [List.length_append _ GPX_EPILOGUE, GPX_EPILOGUE_length]; omega
    rw [hlen, List.drop_left' rfl]
  · rw [List.dropLast_append_of_ne_nil _ hE,
      countOccurrences_append _ _ _ hE (settled_append _ _ _ hpreE.1 hXE.1),
      countOccurrences_append _ _ _ hE hpreE.1, hpreE.2, hXE.2, hlastE]
    simp

theorem points_counted_epilogue_once_witness :
    freshCard.openFile (timestampedPath tokyoFix ".gpx".toList) = File.created
    ∧ (∀ g ∈ [tokyoFix, tokyoFix], renderedNumeric padReading g = true)
    ∧ countOccurrences "<trkpt ".toList
        ([tokyoFix, tokyoFix].foldl (fun st g => writeGpxSampleToSd padReading g st)
          (startFilesOnSdNoSync freshCard tokyoFix Logger.init)).gpxFile.content
        = [tokyoFix, tokyoFix].length :=
  ⟨rfl, by decide,
    (points_counted_epilogue_once padReading freshCard tokyoFix Logger.init
      [tokyoFix, tokyoFix] rfl (by decide)).1⟩

set_option maxRecDepth 100000 in
/-- C16. The scalar formatting of the point fields, `trim (dtostrf value width prec)`, gives
`47.123456` for the latitude 47.123456 at width 10 with 6 fraction digits, `1234.50` for
the altitude 1234.5 at width 5 with 2 fraction digits and `0.0` for the speed 0.0 at width
5 with 1 fraction digit: `dtostrf` gives ` 47.123456`, `1234.50` and `  0.0`, and `trim`
takes the leading spaces away; no result starts or ends with padding. -/
theorem scalar_formatting_examples :
    dtostrf { mantissa := 47123456, scale := 6 } 10 LATLON_PREC = " 47.123456".toList
    ∧ trim (dtostrf { mantissa := 47123456, scale := 6 } 10 LATLON_PREC)
        = "47.123456".toList
    ∧ dtostrf { mantissa := 12345, scale := 1 } 5 2 = "1234.50".toList
    ∧ trim (dtostrf { mantissa := 12345, scale := 1 } 5 2) = "1234.50".toList
    ∧ dtostrf { mantissa := 0, scale := 1 } 5 1 = "  0.0".toList
    ∧ trim (dtostrf { mantissa := 0, scale := 1 } 5 1) = "0.0".toList := by
  decide

end More
end LogHelper
